import Mathlib

/-!
# openstack-bash-creds-helper: a verification development

A shallow embedding of the Go sources (`auth.go`, `cache.go`, `config.go`,
`main.go`, `projects.go`, `ui.go`) together with theorems about them.

Modelling conventions.

* Go strings are Lean `String`s.  Every suffix the code trims is ASCII, and the
  names that are compared come out of `encoding/json` (valid UTF-8), so the
  byte-wise operations of Go agree with the code-point-wise ones used here.
* `time.Time` is an `Int`: the instant in nanoseconds.  `time.Duration` is an
  `Int` number of nanoseconds, saturating at the int64 range as `Time.Sub` does.
* The file system is an association list from path to content; the clock and
  the result of resolving the cache directory are fields of the same state.
* Library and external collaborators (SHA-256, `encoding/json`, the HTTP
  transport, the terminal, fzf) are parameters.
-/

namespace Creds

/-! ## `strings` -/

/-- Go `strings.HasSuffix`: `len(s) >= len(suffix) && s[len(s)-len(suffix):] == suffix`. -/
def HasSuffix (s suffix : String) : Bool :=
  decide (s.length ≥ suffix.length) && (s.data.drop (s.length - suffix.length) == suffix.data)

/-- Go `strings.TrimSuffix`: drop `suffix` once when `s` ends with it. -/
def TrimSuffix (s suffix : String) : String :=
  if HasSuffix s suffix then ⟨s.data.take (s.length - suffix.length)⟩ else s

/-! ## `auth.go`: URL normalisation -/

/-- Source `getUrlPath` (auth.go): strip `/` and `/v3` from the string, append the suffix. -/
def getUrlPath (uri : String) (suffix : String) : String :=
  let trimmed := TrimSuffix uri "/"
  let host := TrimSuffix trimmed "/v3"
  host ++ suffix

/-! ## Data (`projects.go`, `cache.go`, `config.go`, `auth.go`) -/

/-- Source `Project` (projects.go). -/
structure Project where
  ID : String
  Name : String
  Description : String
  deriving DecidableEq, Repr

/-- One element of `ProjectsResponse.Projects` (projects.go). -/
structure ProjectsResponseItem where
  ID : String
  Name : String
  Description : String
  Enabled : Bool
  DomainID : String
  deriving DecidableEq, Repr

/-- Source `ProjectsResponse` (projects.go). -/
structure ProjectsResponse where
  Projects : List ProjectsResponseItem
  deriving DecidableEq, Repr

/-- Source `CacheEntry` (cache.go); `Timestamp` is an instant in nanoseconds. -/
structure CacheEntry where
  Projects : List Project
  Timestamp : Int
  AuthURL : String
  deriving DecidableEq, Repr

/-- Source `TokenCacheEntry` (cache.go). -/
structure TokenCacheEntry where
  Token : String
  ExpiresAt : Int
  CachedAt : Int
  deriving DecidableEq, Repr

/-- Source `CredentialFile` (config.go). -/
structure CredentialFile where
  Path : String
  Type_ : String
  DisplayName : String
  deriving DecidableEq, Repr

/-- Source `Credentials` (config.go). -/
structure Credentials where
  AuthURL : String
  Username : String
  Password : String
  UserDomainName : String
  UserDomainId : String
  Region : String
  TOTPCode : String
  TOTPRequired : Bool
  ProjectID : String
  ProjectName : String
  SystemScope : String
  ApplicationCredentialID : String
  ApplicationCredentialSecret : String
  deriving DecidableEq, Repr

/-- An `{id, name}` pair as it occurs in `TokenResponse` (auth.go). -/
structure IdName where
  ID : String
  Name : String
  deriving DecidableEq, Repr

/-- The `user` object of `TokenResponse` (auth.go). -/
structure TokenUser where
  ID : String
  Name : String
  Domain : IdName
  deriving DecidableEq, Repr

/-- One endpoint of a catalog entry of `TokenResponse` (auth.go). -/
structure CatalogEndpoint where
  ID : String
  Interface : String
  Region : String
  URL : String
  deriving DecidableEq, Repr

/-- One catalog entry of `TokenResponse` (auth.go). -/
structure CatalogEntry where
  Type_ : String
  ID : String
  Name : String
  Endpoints : List CatalogEndpoint
  deriving DecidableEq, Repr

/-- The `token` object of `TokenResponse` (auth.go). -/
structure TokenBody where
  ID : String
  Expires : String
  Project : IdName
  User : TokenUser
  Roles : List IdName
  Catalog : List CatalogEntry
  deriving DecidableEq, Repr

/-- Source `TokenResponse` (auth.go). -/
structure TokenResponse where
  Token : TokenBody
  deriving DecidableEq, Repr

/-! ## `time` -/

/-- Go `time.Hour` in nanoseconds. -/
def Hour : Int := 60 * 60 * 1000000000

/-- Largest `time.Duration` (int64 nanoseconds). -/
def maxDuration : Int := 2 ^ 63 - 1

/-- Smallest `time.Duration`. -/
def minDuration : Int := -(2 ^ 63)

/-- Go `Time.Sub`: the duration `t - u`, saturating at the int64 range. -/
def Time.Sub (t u : Int) : Int :=
  if t - u > maxDuration then maxDuration
  else if t - u < minDuration then minDuration
  else t - u

/-- Go `Time.After`: `t` is strictly after `u`. -/
def Time.After (t u : Int) : Bool := decide (t > u)

/-- The test `d.Hours() > h` for an integer constant `0 ≤ h`.  `Hours` is
`float64(d / Hour) + float64(d % Hour) / (60*60*1e9)`; both casts are exact, `h`
is representable and one nanosecond over `h` hours already exceeds half an ulp
of `h` (for `h = 168`: `2.8e-13` against an ulp of `2.8e-14`), so the float64
comparison holds exactly when `d` exceeds `h` hours. -/
def Duration.HoursGt (d h : Int) : Bool := decide (d > h * Hour)

/-! ## The machine the cache functions run on -/

/-- The operating-system state the cache code touches: environment, home
directory, directory creation (`none` is success), `filepath.Join` of two
elements, the clock and the files (path, content).  `os.ReadFile` fails exactly
on a path with no entry; `os.WriteFile` and `os.Remove` act on the association
list. -/
structure Sys where
  Getenv : String → String
  UserHomeDir : Except String String
  MkdirAll : String → Option String
  Join : String → String → String
  now : Int
  files : List (String × String)

/-- Go `os.ReadFile` on the file map. -/
def Sys.ReadFile (s : Sys) (path : String) : Option String := s.files.lookup path

/-- Go `os.Remove` on the file map. -/
def Sys.Remove (s : Sys) (path : String) : Sys :=
  { s with files := s.files.filter (fun kv => kv.1 != path) }

/-- Go `os.WriteFile` on the file map: the path now holds exactly `data`. -/
def Sys.WriteFile (s : Sys) (path data : String) : Sys :=
  { s with files := (path, data) :: s.files.filter (fun kv => kv.1 != path) }

/-- Library functions the cache and client code calls. -/
structure Lib where
  /-- Go `hex.EncodeToString(sha256.Sum256([]byte(data))[:])`. -/
  sha256hex : String → String
  /-- Go `json.Unmarshal` into a `CacheEntry`; `none` is an error. -/
  unmarshalCacheEntry : String → Option CacheEntry
  /-- Go `json.MarshalIndent` of a `CacheEntry`. -/
  marshalCacheEntry : CacheEntry → Except String String
  /-- Go `json.Unmarshal` into a `TokenCacheEntry`; `none` is an error. -/
  unmarshalTokenCacheEntry : String → Option TokenCacheEntry
  /-- Go `json.MarshalIndent` of a `TokenCacheEntry`. -/
  marshalTokenCacheEntry : TokenCacheEntry → Except String String
  /-- Go `time.Parse(time.RFC3339, ·)`. -/
  parseRFC3339 : String → Except String Int
  /-- Go `json.Unmarshal` into a `TokenResponse`. -/
  unmarshalTokenResponse : String → Except String TokenResponse
  /-- Go `json.Unmarshal` into a `ProjectsResponse`. -/
  unmarshalProjectsResponse : String → Except String ProjectsResponse

/-! ## `cache.go` -/

/-- Source constant `CacheExpiryDays`. -/
def CacheExpiryDays : Int := 7

/-- Source `getCacheDir`. -/
def getCacheDir (s : Sys) : Except String String :=
  let cacheDir := s.Getenv "XDG_CACHE_HOME"
  match (if cacheDir = "" then
      match s.UserHomeDir with
      | .error err => Except.error err
      | .ok homeDir => Except.ok (s.Join homeDir ".cache")
    else Except.ok cacheDir) with
  | .error err => .error err
  | .ok cacheDir =>
    let appCacheDir := s.Join cacheDir "go-creds"
    match s.MkdirAll appCacheDir with
    | some err => .error err
    | none => .ok appCacheDir

/-- A hexadecimal digit, lower case, as `%x` prints it. -/
def hexDigit (n : Nat) : Char := if n < 10 then Char.ofNat (48 + n) else Char.ofNat (87 + n)

/-- The UTF-8 bytes of a code point: Go `[]byte(string)` per character. -/
def utf8Bytes (c : Char) : List Nat :=
  let v := c.toNat
  if v < 0x80 then [v]
  else if v < 0x800 then [0xC0 + v / 64, 0x80 + v % 64]
  else if v < 0x10000 then [0xE0 + v / 4096, 0x80 + v / 64 % 64, 0x80 + v % 64]
  else [0xF0 + v / 262144, 0x80 + v / 4096 % 64, 0x80 + v / 64 % 64, 0x80 + v % 64]

/-- Go `fmt.Sprintf("%x", []byte(s))`. -/
def hexOfBytes (s : String) : String :=
  ⟨s.data.flatMap (fun c => (utf8Bytes c).flatMap (fun b => [hexDigit (b / 16), hexDigit (b % 16)]))⟩

/-- Source `getCacheFilePath`. -/
def getCacheFilePath (s : Sys) (authURL : String) : Except String String :=
  match getCacheDir s with
  | .error err => .error err
  | .ok cacheDir =>
    let filename := "projects_" ++ hexOfBytes authURL ++ ".json"
    .ok (s.Join cacheDir filename)

/-- Source `LoadCachedProjects`.  Go's `nil` slice is `[]`. -/
def LoadCachedProjects (lib : Lib) (s : Sys) (authURL : String) : List Project × Bool :=
  match getCacheFilePath s authURL with
  | .error _ => ([], false)
  | .ok cacheFile =>
    match s.ReadFile cacheFile with
    | none => ([], false)
    | some data =>
      match lib.unmarshalCacheEntry data with
      | none => ([], false)
      | some entry =>
        if entry.AuthURL ≠ authURL then ([], false)
        else if Duration.HoursGt (Time.Sub s.now entry.Timestamp) (24 * CacheExpiryDays) then
          ([], false)
        else (entry.Projects, true)

/-- Source `SaveProjectsToCache`: the error, or the state after the write. -/
def SaveProjectsToCache (lib : Lib) (s : Sys) (authURL : String) (projectsList : List Project) :
    Except String Sys :=
  match getCacheFilePath s authURL with
  | .error err => .error err
  | .ok cacheFile =>
    let entry : CacheEntry := { Projects := projectsList, Timestamp := s.now, AuthURL := authURL }
    match lib.marshalCacheEntry entry with
    | .error err => .error err
    | .ok data => .ok (s.WriteFile cacheFile data)

/-- Source `ClearCache`. -/
def ClearCache (s : Sys) (authURL : String) : Except String Sys :=
  match getCacheFilePath s authURL with
  | .error err => .error err
  | .ok cacheFile =>
    if (s.ReadFile cacheFile).isNone then .ok s
    else .ok (s.Remove cacheFile)

/-- The string `data` that `generateTokenCacheKey` hashes. -/
def tokenCacheKeyData (authURL username userDomain projectID : String) : String :=
  let data := authURL ++ "|" ++ username ++ "|" ++ userDomain
  if projectID ≠ "" then data ++ ("|" ++ projectID) else data

/-- Source `generateTokenCacheKey`. -/
def generateTokenCacheKey (lib : Lib) (authURL username userDomain projectID : String) : String :=
  lib.sha256hex (tokenCacheKeyData authURL username userDomain projectID)

/-- Source `getTokenCacheFilePath`. -/
def getTokenCacheFilePath (lib : Lib) (s : Sys) (authURL username userDomain projectID : String) :
    Except String String :=
  match getCacheDir s with
  | .error err => .error err
  | .ok cacheDir =>
    let key := generateTokenCacheKey lib authURL username userDomain projectID
    let filename := "token_" ++ key ++ ".json"
    .ok (s.Join cacheDir filename)

/-- Source `LoadCachedToken`: the returned pair and the state afterwards. -/
def LoadCachedToken (lib : Lib) (s : Sys) (authURL username userDomain projectID : String) :
    (String × Bool) × Sys :=
  match getTokenCacheFilePath lib s authURL username userDomain projectID with
  | .error _ => (("", false), s)
  | .ok cacheFile =>
    match s.ReadFile cacheFile with
    | none => (("", false), s)
    | some data =>
      match lib.unmarshalTokenCacheEntry data with
      | none => (("", false), s)
      | some entry =>
        let now := s.now
        if Time.After now entry.ExpiresAt then (("", false), s.Remove cacheFile)
        else ((entry.Token, true), s)

/-- The text `SaveTokenToCache` passes to `time.Parse`:
`strings.TrimSuffix(expiresAt, "Z")+"Z"`. -/
def SaveTokenToCache.expiryText (expiresAt : String) : String :=
  TrimSuffix expiresAt "Z" ++ "Z"

/-- Source `SaveTokenToCache`: the error, or the state after the write. -/
def SaveTokenToCache (lib : Lib) (s : Sys)
    (authURL username userDomain projectID token expiresAt : String) : Except String Sys :=
  match getTokenCacheFilePath lib s authURL username userDomain projectID with
  | .error err => .error err
  | .ok cacheFile =>
    match lib.parseRFC3339 (SaveTokenToCache.expiryText expiresAt) with
    | .error err => .error err
    | .ok expiryTime =>
      let entry : TokenCacheEntry := { Token := token, ExpiresAt := expiryTime, CachedAt := s.now }
      match lib.marshalTokenCacheEntry entry with
      | .error err => .error err
      | .ok data => .ok (s.WriteFile cacheFile data)

/-- Source `ClearTokenCache`. -/
def ClearTokenCache (lib : Lib) (s : Sys) (authURL username userDomain projectID : String) :
    Except String Sys :=
  match getTokenCacheFilePath lib s authURL username userDomain projectID with
  | .error err => .error err
  | .ok cacheFile =>
    if (s.ReadFile cacheFile).isNone then .ok s
    else .ok (s.Remove cacheFile)

/-! ## `config.go` -/

/-- Source `Credentials.HasProjectDefined`. -/
def Credentials.HasProjectDefined (c : Credentials) : Bool :=
  c.ProjectID != "" || c.ProjectName != ""

/-- Source `Credentials.IsApplicationCredential`. -/
def Credentials.IsApplicationCredential (c : Credentials) : Bool :=
  c.ApplicationCredentialID != "" && c.ApplicationCredentialSecret != ""

/-! ## The network, the terminal and the trace of calls -/

/-- A JSON value as the request bodies need it: the `map[string]interface{}`
values of auth.go, with the keys in the order the source writes them. -/
inductive Json where
  | str (s : String)
  | arr (xs : List Json)
  | obj (kvs : List (String × Json))

/-- Go map assignment `m[k] = v` on the key/value list of an object. -/
def Json.setKey (kvs : List (String × Json)) (k : String) (v : Json) : List (String × Json) :=
  if kvs.any (fun kv => kv.1 == k) then kvs.map (fun kv => if kv.1 == k then (k, v) else kv)
  else kvs ++ [(k, v)]

/-- What the code reads of an `http.Response`: status code and text, the
`X-Subject-Token` header (`""` when absent), and the result of `io.ReadAll` on
the body (data and error). -/
structure Response where
  StatusCode : Nat
  Status : String
  SubjectToken : String
  Body : String
  ReadErr : Option String

/-- The external collaborators of one run.  `Post url body` is
`http.Post(url, "application/json", body)` and `Get url token` is the GET request
of `ListProjects` carrying `X-Auth-Token: token` (an error covers a failure to
build the request as well as a transport failure); `PromptForTOTP` is the
terminal prompt of ui.go; `fzfSelectProject` is the `fzfSelect` call of
`SelectProject` (fzf and the terminal), `none` when nothing is selected. -/
structure Net where
  Post : String → Json → Except String Response
  Get : String → String → Except String Response
  PromptForTOTP : Except String String
  fzfSelectProject : List Project → CredentialFile → Option Project

/-- One call to a collaborator, in the order the run makes them. -/
inductive Event where
  | PromptForTOTP
  | Post (url : String) (body : Json)
  | Get (url : String) (token : String)
  | SelectProject (projectsList : List Project)

/-- Whether an event is an HTTP request (POST or GET). -/
def Event.isRequest : Event → Bool
  | .Get _ _ => true
  | .Post _ _ => true
  | _ => false

/-- How a run ends: `os.Exit(1)` after a message on stderr, or a normal return
after the lines printed on stdout. -/
inductive Outcome where
  | exit (stderr : String)
  | ok (stdout : List String)
  deriving DecidableEq, Repr

/-! ## `auth.go` -/

/-- Source `getDomainSpec`: the domain specification, preferring ID over Name. -/
def getDomainSpec (creds : Credentials) : Json :=
  if creds.UserDomainId ≠ "" then Json.obj [("id", Json.str creds.UserDomainId)]
  else Json.obj [("name", Json.str creds.UserDomainName)]

/-- The `identity` map that `GetUnscopedToken`, `GetScopedToken` and
`GetScopedTokenByProjectName` each build with the same statements. -/
def passwordIdentity (creds : Credentials) : List (String × Json) :=
  let methods := [Json.str "password"]
  let identity := [
    ("methods", Json.arr methods),
    ("password", Json.obj [
      ("user", Json.obj [
        ("name", Json.str creds.Username),
        ("domain", getDomainSpec creds),
        ("password", Json.str creds.Password)])])]
  if creds.TOTPCode ≠ "" then
    let methods := methods ++ [Json.str "totp"]
    let identity := Json.setKey identity "methods" (Json.arr methods)
    Json.setKey identity "totp" (Json.obj [
      ("user", Json.obj [
        ("name", Json.str creds.Username),
        ("domain", getDomainSpec creds),
        ("passcode", Json.str creds.TOTPCode)])])
  else identity

/-- Source `GetUnscopedToken`: the calls made and the result.  (Here and in the
next three functions `json.Marshal` of a map of strings cannot fail, so its
error branch is left out.) -/
def GetUnscopedToken (net : Net) (creds : Credentials) : List Event × Except String String :=
  let identity := passwordIdentity creds
  let authData := Json.obj [("auth", Json.obj [("identity", Json.obj identity)])]
  let url := getUrlPath creds.AuthURL "/v3/auth/tokens?nocatalog"
  ([Event.Post url authData],
    match net.Post url authData with
    | .error err => .error err
    | .ok resp =>
      match resp.ReadErr with
      | some err => .error err
      | none =>
        if resp.StatusCode ≠ 201 then
          .error ("authentication failed: " ++ resp.Status ++ " - " ++ resp.Body)
        else
          let token := resp.SubjectToken
          if token = "" then .error "no token received"
          else .ok token)

/-- Source `GetApplicationCredentialToken`: the calls made and the result. -/
def GetApplicationCredentialToken (lib : Lib) (net : Net) (creds : Credentials) :
    List Event × Except String (String × TokenResponse) :=
  let methods := [Json.str "application_credential"]
  let identity := [
    ("methods", Json.arr methods),
    ("application_credential", Json.obj [
      ("id", Json.str creds.ApplicationCredentialID),
      ("secret", Json.str creds.ApplicationCredentialSecret)])]
  let authData := Json.obj [("auth", Json.obj [("identity", Json.obj identity)])]
  let url := getUrlPath creds.AuthURL "/v3/auth/tokens"
  ([Event.Post url authData],
    match net.Post url authData with
    | .error err => .error err
    | .ok resp =>
      match resp.ReadErr with
      | some err => .error err
      | none =>
        if resp.StatusCode ≠ 201 then
          .error ("application credential authentication failed: " ++ resp.Status ++ " - "
            ++ resp.Body)
        else
          let token := resp.SubjectToken
          if token = "" then .error "no token received"
          else
            match lib.unmarshalTokenResponse resp.Body with
            | .error err => .error ("failed to parse token response: " ++ err)
            | .ok tokenResponse => .ok (token, tokenResponse))

/-- Source `GetScopedToken`: the calls made and the result. -/
def GetScopedToken (net : Net) (creds : Credentials) (projectID : String) :
    List Event × Except String String :=
  let identity := passwordIdentity creds
  let authData := Json.obj [("auth", Json.obj [
    ("identity", Json.obj identity),
    ("scope", Json.obj [("project", Json.obj [("id", Json.str projectID)])])])]
  let url := getUrlPath creds.AuthURL "/v3/auth/tokens"
  ([Event.Post url authData],
    match net.Post url authData with
    | .error err => .error err
    | .ok resp =>
      match resp.ReadErr with
      | some err => .error err
      | none =>
        if resp.StatusCode ≠ 201 then
          .error ("scoped authentication failed: " ++ resp.Status ++ " - " ++ resp.Body)
        else
          let token := resp.SubjectToken
          if token = "" then .error "no scoped token received"
          else .ok token)

/-- Source `GetScopedTokenByProjectName`: the calls made and the result. -/
def GetScopedTokenByProjectName (lib : Lib) (net : Net) (creds : Credentials)
    (projectName : String) : List Event × Except String (String × TokenResponse) :=
  let identity := passwordIdentity creds
  let scopeData := Json.obj [
    ("project", Json.obj [("name", Json.str projectName), ("domain", getDomainSpec creds)])]
  let authData := Json.obj [("auth", Json.obj [
    ("identity", Json.obj identity),
    ("scope", scopeData)])]
  let url := getUrlPath creds.AuthURL "/v3/auth/tokens?nocatalog"
  ([Event.Post url authData],
    match net.Post url authData with
    | .error err => .error err
    | .ok resp =>
      match resp.ReadErr with
      | some err => .error err
      | none =>
        if resp.StatusCode ≠ 201 then
          .error ("scoped authentication failed: " ++ resp.Status ++ " - " ++ resp.Body)
        else
          let token := resp.SubjectToken
          if token = "" then .error "no scoped token received"
          else
            match lib.unmarshalTokenResponse resp.Body with
            | .error err => .error ("failed to parse token response: " ++ err)
            | .ok tokenResponse => .ok (token, tokenResponse))

/-! ## `projects.go` -/

/-- Request URL computed by `ListProjects` (its first two statements):
`authURL = strings.TrimSuffix(authURL, "/")`, then `authURL+"/v3/auth/projects"`. -/
def ListProjects.requestURL (authURL : String) : String :=
  let authURL := TrimSuffix authURL "/"
  authURL ++ "/v3/auth/projects"

/-- The comparison given to `sort.Slice` in `ListProjects`:
`projects[i].Name < projects[j].Name`, Go's order on strings. -/
def ListProjects.less (a b : Project) : Bool := decide (a.Name.data < b.Name.data)

/-- Insertion of one element before the first element it is `less` than. -/
def insertByLess {α : Type} (less : α → α → Bool) (x : α) : List α → List α
  | [] => [x]
  | y :: ys => if less x y then x :: y :: ys else y :: insertByLess less x ys

/-- Go `sort.Slice`, modelled by an insertion sort driven by the same `less`.
`sort.Slice` promises no particular order among elements that compare equal;
nothing proved about the result depends on that order. -/
def sortSlice {α : Type} (less : α → α → Bool) (xs : List α) : List α :=
  xs.foldr (insertByLess less) []

/-- The loop of `ListProjects`: append a `Project` for every enabled entry. -/
def ListProjects.collect (items : List ProjectsResponseItem) : List Project :=
  items.foldl (fun projects p =>
    if p.Enabled then
      projects ++ [{ ID := p.ID, Name := p.Name, Description := p.Description }]
    else projects) []

/-- What `ListProjects` returns once the response body is parsed: the loop,
then `sort.Slice`. -/
def ListProjects.result (projectsResp : ProjectsResponse) : List Project :=
  let projects := ListProjects.collect projectsResp.Projects
  sortSlice ListProjects.less projects

/-- Source `ListProjects`: the calls made and the result. -/
def ListProjects (lib : Lib) (net : Net) (authURL token : String) :
    List Event × Except String (List Project) :=
  let url := ListProjects.requestURL authURL
  ([Event.Get url token],
    match net.Get url token with
    | .error err => .error err
    | .ok resp =>
      if resp.StatusCode ≠ 200 then
        .error ("failed to list projects: " ++ resp.Status ++ " - " ++ resp.Body)
      else
        match resp.ReadErr with
        | some err => .error err
        | none =>
          match lib.unmarshalProjectsResponse resp.Body with
          | .error err => .error err
          | .ok projectsResp => .ok (ListProjects.result projectsResp))

/-! ## `ui.go` -/

/-- Source `SelectProject`: a single project is returned without interaction,
otherwise the choice is fzf's; `none` is the nil pointer. -/
def SelectProject (net : Net) (projectsList : List Project) (credFile : CredentialFile) :
    Option Project :=
  match projectsList with
  | [p] => some p
  | _ => net.fzfSelectProject projectsList credFile

/-! ## `main.go` -/

/-- Source `outputEnvironmentVars`: the lines printed. -/
def outputEnvironmentVars (credFile : CredentialFile) (project : Project) (token : String)
    (creds : Credentials) : List String :=
  ["export OS_CRED=" ++ credFile.DisplayName,
   "export OS_IDENTITY_API_VERSION=3",
   "export OS_AUTH_URL=" ++ creds.AuthURL,
   "export OS_PROJECT_ID=" ++ project.ID,
   "export OS_TOKEN=" ++ token,
   "export OS_AUTH_TYPE=token"]
  ++ (if creds.Region ≠ "" then ["export OS_REGION_NAME=" ++ creds.Region] else [])

/-- Source `outputSystemScopeVars`: the lines printed. -/
def outputSystemScopeVars (credFile : CredentialFile) (token : String) (creds : Credentials) :
    List String :=
  ["export OS_CRED=" ++ credFile.DisplayName ++ "/system",
   "export OS_IDENTITY_API_VERSION=3",
   "export OS_AUTH_URL=" ++ creds.AuthURL,
   "export OS_SYSTEM_SCOPE=" ++ creds.SystemScope,
   "export OS_TOKEN=" ++ token,
   "export OS_AUTH_TYPE=token"]
  ++ (if creds.Region ≠ "" then ["export OS_REGION_NAME=" ++ creds.Region] else [])

/-- The TOTP step of `main`: prompt when the record is not an application
credential and `TOTPRequired` is set, and store the code in the record. -/
def main.totp (net : Net) (creds : Credentials) : List Event × Except String Credentials :=
  if !creds.IsApplicationCredential && creds.TOTPRequired then
    ([Event.PromptForTOTP],
      match net.PromptForTOTP with
      | .error err => .error err
      | .ok totpCode => .ok { creds with TOTPCode := totpCode })
  else ([], .ok creds)

/-- The last part of `main`: no project is defined, so list the projects and
let the user select one. -/
def main.selectInteractively (lib : Lib) (net : Net) (credFile : CredentialFile)
    (creds : Credentials) : List Event × Outcome :=
  match GetUnscopedToken net creds with
  | (t1, .error err) => (t1, .exit ("Error getting unscoped token: " ++ err ++ "\n"))
  | (t1, .ok token) =>
    match ListProjects lib net creds.AuthURL token with
    | (t2, .error err) => (t1 ++ t2, .exit ("Error listing projects: " ++ err ++ "\n"))
    | (t2, .ok projectsList) =>
      if projectsList.length = 0 then (t1 ++ t2, .exit "No projects found\n")
      else
        match SelectProject net projectsList credFile with
        | none =>
          (t1 ++ t2 ++ [Event.SelectProject projectsList], .exit "No project selected\n")
        | some selectedProject =>
          let credFile :=
            { credFile with DisplayName := credFile.DisplayName ++ "/" ++ selectedProject.Name }
          match GetScopedToken net creds selectedProject.ID with
          | (t3, .error err) =>
            (t1 ++ t2 ++ [Event.SelectProject projectsList] ++ t3,
              .exit ("Error getting scoped token: " ++ err ++ "\n"))
          | (t3, .ok scopedToken) =>
            (t1 ++ t2 ++ [Event.SelectProject projectsList] ++ t3,
              .ok (outputEnvironmentVars credFile selectedProject scopedToken creds))

/-- Source `main` from the point where the credentials are loaded: the calls
made to the collaborators, in order, and how the run ends.  The file system and
clock `_sys` are there for the run to use; the code never reads them.  Debug
output is left out. -/
def main (lib : Lib) (net : Net) (_sys : Sys) (credFile : CredentialFile)
    (creds : Credentials) : List Event × Outcome :=
  match main.totp net creds with
  | (t0, .error err) => (t0, .exit ("Error reading TOTP code: " ++ err ++ "\n"))
  | (t0, .ok creds) =>
    if creds.IsApplicationCredential then
      match GetApplicationCredentialToken lib net creds with
      | (t1, .error err) =>
        (t0 ++ t1, .exit ("Error getting application credential token: " ++ err ++ "\n"))
      | (t1, .ok (token, tokenResponse)) =>
        let selectedProject : Project :=
          { ID := tokenResponse.Token.Project.ID, Name := tokenResponse.Token.Project.Name,
            Description := "" }
        (t0 ++ t1, .ok (outputEnvironmentVars credFile selectedProject token creds))
    else if creds.SystemScope ≠ "" then
      match GetUnscopedToken net creds with
      | (t1, .error err) => (t0 ++ t1, .exit ("Error getting unscoped token: " ++ err ++ "\n"))
      | (t1, .ok token) => (t0 ++ t1, .ok (outputSystemScopeVars credFile token creds))
    else if creds.HasProjectDefined then
      if creds.ProjectID ≠ "" then
        match GetScopedToken net creds creds.ProjectID with
        | (t1, .error err) => (t0 ++ t1, .exit ("Error getting scoped token: " ++ err ++ "\n"))
        | (t1, .ok scopedToken) =>
          let selectedProject : Project :=
            { ID := creds.ProjectID, Name := creds.ProjectName, Description := "" }
          (t0 ++ t1, .ok (outputEnvironmentVars credFile selectedProject scopedToken creds))
      else
        match GetScopedTokenByProjectName lib net creds creds.ProjectName with
        | (t1, .error err) => (t0 ++ t1, .exit ("Error getting scoped token: " ++ err ++ "\n"))
        | (t1, .ok (scopedToken, tokenResponse)) =>
          let selectedProject : Project :=
            { ID := tokenResponse.Token.Project.ID, Name := tokenResponse.Token.Project.Name,
              Description := "" }
          (t0 ++ t1, .ok (outputEnvironmentVars credFile selectedProject scopedToken creds))
    else
      let (t1, out) := main.selectInteractively lib net credFile creds
      (t0 ++ t1, out)

/-! ## Concrete instances for evaluation -/

/-- An auth URL in the usual `/v3` form. -/
def demoAuthURL : String := "http://k:5000/v3"

/-- Two projects, as an earlier listing cached them. -/
def demoProjects : List Project := [⟨"8", "cached-a", ""⟩, ⟨"9", "cached-b", ""⟩]

/-- A project-list cache entry written at instant `1000`. -/
def demoEntry : CacheEntry := ⟨demoProjects, 1000, demoAuthURL⟩

/-- A token cache entry expiring at instant `100`. -/
def demoTokenEntry : TokenCacheEntry := ⟨"tok", 100, 0⟩

/-- A parsed listing: `beta` (enabled), `gamma` (disabled), `alpha` (enabled). -/
def demoListing : ProjectsResponse :=
  ⟨[⟨"2", "beta", "", true, "d"⟩, ⟨"3", "gamma", "", false, "d"⟩, ⟨"1", "alpha", "", true, "d"⟩]⟩

/-- A library instance: the hash is the identity, the file content `P` is the
encoding of `demoEntry`, `T` that of `demoTokenEntry` and `R` that of
`demoListing`; every other content is unparseable. -/
def demoLib : Lib where
  sha256hex := fun data => data
  unmarshalCacheEntry := fun data => if data = "P" then some demoEntry else none
  marshalCacheEntry := fun e => if e = demoEntry then .ok "P" else .error "unsupported"
  unmarshalTokenCacheEntry := fun data => if data = "T" then some demoTokenEntry else none
  marshalTokenCacheEntry := fun e => if e = demoTokenEntry then .ok "T" else .error "unsupported"
  parseRFC3339 := fun _ => .ok 100
  unmarshalTokenResponse := fun _ => .error "unsupported"
  unmarshalProjectsResponse := fun body =>
    if body = "R" then .ok demoListing else .error "unsupported"

/-- The cache file of the token of `(demoAuthURL, "u", "Default", "")`. -/
def demoTokenFile : String := "/c/go-creds/token_http://k:5000/v3|u|Default.json"

/-- The cache file of the project list of `demoAuthURL`. -/
def demoProjectsFile : String :=
  "/c/go-creds/projects_687474703a2f2f6b3a353030302f7633.json"

/-- A machine with `XDG_CACHE_HOME=/c`, the clock at `now` and both demo cache
files present. -/
def demoSys (now : Int) : Sys where
  Getenv := fun _ => "/c"
  UserHomeDir := .ok "/home/u"
  MkdirAll := fun _ => none
  Join := fun dir name => dir ++ "/" ++ name
  now := now
  files := [(demoTokenFile, "T"), (demoProjectsFile, "P")]

/-- A network where every POST answers `201` with token `tok` and every GET
answers `200` with body `R`; the TOTP prompt yields a code and fzf picks the
first project offered. -/
def demoNet : Net where
  Post := fun _ _ => .ok ⟨201, "201 Created", "tok", "", none⟩
  Get := fun _ _ => .ok ⟨200, "200 OK", "", "R", none⟩
  PromptForTOTP := .ok "123456"
  fzfSelectProject := fun projectsList _ => projectsList.head?

/-- A password record with no system scope, project id or project name. -/
def demoCreds : Credentials where
  AuthURL := demoAuthURL
  Username := "u"
  Password := "pw"
  UserDomainName := "Default"
  UserDomainId := ""
  Region := ""
  TOTPCode := ""
  TOTPRequired := false
  ProjectID := ""
  ProjectName := ""
  SystemScope := ""
  ApplicationCredentialID := ""
  ApplicationCredentialSecret := ""

/-- A credential file. -/
def demoCredFile : CredentialFile := ⟨"cloud/u.openrc", "openrc", "cloud/u"⟩

/-- The body of a token response granting the project `abc` named `dev`:
the text `\x7b"token":\x7b"project":\x7b"id":"abc","name":"dev"\x7d\x7d\x7d`. -/
def devBody : String :=
  "\x7b\"token\":\x7b\"project\":\x7b\"id\":\"abc\",\"name\":\"dev\"\x7d\x7d\x7d"

/-- What `devBody` parses to: only `token.project` is set. -/
def devTokenResponse : TokenResponse :=
  ⟨⟨"", "", ⟨"abc", "dev"⟩, ⟨"", "", ⟨"", ""⟩⟩, [], []⟩⟩

/-- The demo library, parsing `devBody` as a token response. -/
def devLib : Lib :=
  { demoLib with
    unmarshalTokenResponse := fun body =>
      if body = devBody then .ok devTokenResponse else .error "unsupported" }

/-- A network where every POST answers `201` with `X-Subject-Token: tok123` and
the body `devBody`. -/
def devNet : Net :=
  { demoNet with Post := fun _ _ => .ok ⟨201, "201 Created", "tok123", devBody, none⟩ }

/-- The demo record with `project_name = "dev"` (domain name `Default`). -/
def devCreds : Credentials := { demoCreds with ProjectName := "dev" }

/-- The demo record as an application credential; the password-flow fields
`totp_required`, `system_scope`, `project_id` and `project_name` are set too. -/
def appCreds : Credentials :=
  { demoCreds with
    ApplicationCredentialID := "ac1", ApplicationCredentialSecret := "s3cret",
    TOTPRequired := true, SystemScope := "all", ProjectID := "p1", ProjectName := "dev" }

/-- The demo record with `system_scope = "all"`; `totp_required`, `project_id`
and `project_name` are set too. -/
def sysCreds : Credentials :=
  { demoCreds with
    SystemScope := "all", TOTPRequired := true, ProjectID := "p1", ProjectName := "dev" }

/-- The demo record with `project_id = "p1"` and `project_name = "dev"`. -/
def idCreds : Credentials := { demoCreds with ProjectID := "p1", ProjectName := "dev" }

/-- A network where every POST answers `201` with an empty `X-Subject-Token`. -/
def noTokenNet : Net :=
  { demoNet with Post := fun _ _ => .ok ⟨201, "201 Created", "", "", none⟩ }

/-- The demo network with a TOTP prompt that fails (no terminal). -/
def failingPromptNet : Net :=
  { demoNet with PromptForTOTP := .error "failed to open /dev/tty: no such device" }

/-- The record `idCreds` with `totp_required` set. -/
def idTotpCreds : Credentials := { idCreds with TOTPRequired := true }

/-! ## Reading a request body -/

/-- The value under key `k` of a JSON object. -/
def Json.field (j : Json) (k : String) : Option Json :=
  match j with
  | .obj kvs => kvs.lookup k
  | _ => none

/-- The value reached from `j` by following the keys in order. -/
def Json.path (j : Json) : List String → Option Json
  | [] => some j
  | k :: ks =>
    match j.field k with
    | none => none
    | some v => v.path ks

/-- The domain object the selection rule prescribes for a record:
`{id: user_domain_id}` when `user_domain_id` is non-empty, else
`{name: user_domain_name}`; one key in either case. -/
def domainRule (creds : Credentials) : Json :=
  if creds.UserDomainId = "" then Json.obj [("name", Json.str creds.UserDomainName)]
  else Json.obj [("id", Json.str creds.UserDomainId)]

/-- The demo record with both domain fields set and a TOTP code. -/
def domainCreds : Credentials :=
  { demoCreds with UserDomainId := "dom1", UserDomainName := "Default", TOTPCode := "123456" }

/-! ## Lemmas on `strings` -/

theorem HasSuffix_iff (s suffix : String) :
    HasSuffix s suffix = true ↔ suffix.data <:+ s.data := by
  unfold HasSuffix
  simp only [Bool.and_eq_true, decide_eq_true_eq, beq_iff_eq, String.length]
  constructor
  · rintro ⟨_, h⟩
    rw [← h]
    exact List.drop_suffix _ _
  · intro h
    obtain ⟨t, ht⟩ := h
    rw [← ht]
    simp

theorem HasSuffix_eq_false_iff (s suffix : String) :
    HasSuffix s suffix = false ↔ ¬ suffix.data <:+ s.data := by
  rw [← HasSuffix_iff]
  simp

theorem HasSuffix_append_self (b suffix : String) : HasSuffix (b ++ suffix) suffix = true := by
  rw [HasSuffix_iff, String.data_append]
  exact List.suffix_append _ _

theorem TrimSuffix_append_self (b suffix : String) : TrimSuffix (b ++ suffix) suffix = b := by
  unfold TrimSuffix
  rw [HasSuffix_append_self, if_pos rfl]
  apply String.ext
  show List.take ((b ++ suffix).data.length - suffix.data.length) (b ++ suffix).data = b.data
  rw [String.data_append, List.length_append, Nat.add_sub_cancel, List.take_left]

theorem TrimSuffix_of_not (s suffix : String) (h : HasSuffix s suffix = false) :
    TrimSuffix s suffix = s := by
  unfold TrimSuffix
  simp [h]

theorem not_suffix_of_last_ne (l suf : List Char) (c d : Char) (h : c ≠ d) :
    ¬ (suf ++ [c]) <:+ (l ++ [d]) := by
  intro hs
  have := List.reverse_prefix.mpr hs
  simp only [List.reverse_append, List.reverse_cons, List.reverse_nil, List.nil_append,
    List.singleton_append] at this
  exact h (List.cons_prefix_cons.mp this).1

theorem HasSuffix_slash_v3 (b : String) : HasSuffix (b ++ "/v3") "/" = false := by
  rw [HasSuffix_eq_false_iff, String.data_append]
  exact not_suffix_of_last_ne (b.data ++ ['/', 'v']) [] '/' '3' (by decide) ∘ by
    intro h; simpa using h

/-! ## C1 -/

/-- C1: for a base `b` ending in neither `/` nor `/v3`, the four stored forms
`b`, `b/`, `b/v3`, `b/v3/` all give `getUrlPath … s = b ++ s`. -/
theorem getUrlPath_four_forms (b s : String)
    (h1 : HasSuffix b "/" = false) (h2 : HasSuffix b "/v3" = false) :
    getUrlPath b s = b ++ s ∧ getUrlPath (b ++ "/") s = b ++ s ∧
      getUrlPath (b ++ "/v3") s = b ++ s ∧ getUrlPath (b ++ "/v3/") s = b ++ s := by
  have e : b ++ "/v3/" = (b ++ "/v3") ++ "/" := by apply String.ext; simp
  refine ⟨?_, ?_, ?_, ?_⟩
  · simp only [getUrlPath, TrimSuffix_of_not b "/" h1, TrimSuffix_of_not b "/v3" h2]
  · simp only [getUrlPath, TrimSuffix_append_self, TrimSuffix_of_not b "/v3" h2]
  · simp only [getUrlPath, TrimSuffix_of_not _ "/" (HasSuffix_slash_v3 b), TrimSuffix_append_self]
  · simp only [getUrlPath, e, TrimSuffix_append_self]

/-- Witness for C1 at `b = "http://k:5000"`, `s = "/v3/auth/tokens"`. -/
theorem getUrlPath_four_forms_witness :
    getUrlPath "http://k:5000" "/v3/auth/tokens" = "http://k:5000" ++ "/v3/auth/tokens" ∧
      getUrlPath ("http://k:5000" ++ "/") "/v3/auth/tokens" = "http://k:5000" ++ "/v3/auth/tokens" ∧
      getUrlPath ("http://k:5000" ++ "/v3") "/v3/auth/tokens"
        = "http://k:5000" ++ "/v3/auth/tokens" ∧
      getUrlPath ("http://k:5000" ++ "/v3/") "/v3/auth/tokens"
        = "http://k:5000" ++ "/v3/auth/tokens" :=
  getUrlPath_four_forms "http://k:5000" "/v3/auth/tokens" (by decide) (by decide)

/-! ## C2 -/

/-- C2 (evaluation at the failing input): for `authURL = "http://k:5000/v3"` the URL
`ListProjects` requests is `http://k:5000/v3/v3/auth/projects`, whereas
`getUrlPath` gives `http://k:5000/v3/auth/projects`; they differ. -/
theorem ListProjects_requestURL_keeps_v3 :
    ListProjects.requestURL "http://k:5000/v3" = "http://k:5000/v3/v3/auth/projects" ∧
      getUrlPath "http://k:5000/v3" "/v3/auth/projects" = "http://k:5000/v3/auth/projects" ∧
      ListProjects.requestURL "http://k:5000/v3/" = "http://k:5000/v3/v3/auth/projects" ∧
      ListProjects.requestURL "http://k:5000/v3"
        ≠ getUrlPath "http://k:5000/v3" "/v3/auth/projects" := by
  decide

/-! ## Lemmas on the file map and the clock -/

theorem lookup_filter_ne (l : List (String × String)) (path q : String) :
    List.lookup q (l.filter (fun kv => kv.1 != path))
      = if q = path then none else List.lookup q l := by
  induction l with
  | nil => simp
  | cons kv rest ih =>
    obtain ⟨k, v⟩ := kv
    by_cases hk : k = path
    · subst hk
      by_cases hq : q = k
      · simpa [List.filter_cons, hq] using ih
      · have h2 : (q == k) = false := by simpa using hq
        rw [List.lookup_cons, h2]
        simpa [List.filter_cons] using ih
    · by_cases hq : q = k
      · subst hq
        simp [List.filter_cons, hk, List.lookup_cons]
      · have h2 : (q == k) = false := by simpa using hq
        simp only [List.filter_cons, bne_iff_ne, ne_eq, hk, not_false_eq_true, decide_True,
          if_true, List.lookup_cons, h2]
        simpa using ih

theorem ReadFile_Remove_self (s : Sys) (path : String) : (s.Remove path).ReadFile path = none := by
  simp [Sys.ReadFile, Sys.Remove, lookup_filter_ne]

theorem ReadFile_Remove_other (s : Sys) (path q : String) (hq : q ≠ path) :
    (s.Remove path).ReadFile q = s.ReadFile q := by
  simp [Sys.ReadFile, Sys.Remove, lookup_filter_ne, hq]

theorem ReadFile_WriteFile_self (s : Sys) (path data : String) :
    (s.WriteFile path data).ReadFile path = some data := by
  simp [Sys.ReadFile, Sys.WriteFile, List.lookup_cons]

theorem HoursGt_Sub_iff (now ts : Int) :
    Duration.HoursGt (Time.Sub now ts) (24 * CacheExpiryDays) = true
      ↔ now - ts > 7 * 24 * Hour := by
  unfold Duration.HoursGt Time.Sub maxDuration minDuration CacheExpiryDays Hour
  simp only [decide_eq_true_eq]
  split_ifs <;> omega

/-! ## C3 -/

/-- C3: when the cache file of a key tuple holds a parseable token entry,
`LoadCachedToken` (a) returns `("", false)` and removes that file (leaving the
other files alone) if `expires_at` is strictly before now, and (b) returns the
stored token with `true` and leaves the cache unchanged if `expires_at` is
strictly after now. -/
theorem LoadCachedToken_expired_or_fresh (lib : Lib) (s : Sys)
    (authURL username userDomain projectID cacheFile data : String) (entry : TokenCacheEntry)
    (hpath : getTokenCacheFilePath lib s authURL username userDomain projectID = .ok cacheFile)
    (hread : s.ReadFile cacheFile = some data)
    (hparse : lib.unmarshalTokenCacheEntry data = some entry) :
    (entry.ExpiresAt < s.now →
        LoadCachedToken lib s authURL username userDomain projectID
          = (("", false), s.Remove cacheFile)
        ∧ (s.Remove cacheFile).ReadFile cacheFile = none
        ∧ ∀ q, q ≠ cacheFile → (s.Remove cacheFile).ReadFile q = s.ReadFile q)
    ∧ (s.now < entry.ExpiresAt →
        LoadCachedToken lib s authURL username userDomain projectID = ((entry.Token, true), s)) := by
  constructor
  · intro h
    refine ⟨?_, ReadFile_Remove_self s cacheFile, fun q hq => ReadFile_Remove_other s cacheFile q hq⟩
    simp [LoadCachedToken, hpath, hread, hparse, Time.After, h]
  · intro h
    have h2 : ¬ entry.ExpiresAt < s.now := by omega
    simp [LoadCachedToken, hpath, hread, hparse, Time.After, h2]

/-- Witness for C3: the demo token entry expires at `100`; read at `1000` it is
deleted and reported absent, read at `50` it is returned and the files stay. -/
theorem LoadCachedToken_expired_or_fresh_witness :
    (LoadCachedToken demoLib (demoSys 1000) demoAuthURL "u" "Default" ""
        = (("", false), (demoSys 1000).Remove demoTokenFile)
      ∧ ((demoSys 1000).Remove demoTokenFile).ReadFile demoTokenFile = none
      ∧ ∀ q, q ≠ demoTokenFile →
          ((demoSys 1000).Remove demoTokenFile).ReadFile q = (demoSys 1000).ReadFile q)
    ∧ LoadCachedToken demoLib (demoSys 50) demoAuthURL "u" "Default" ""
        = (("tok", true), demoSys 50) :=
  ⟨(LoadCachedToken_expired_or_fresh demoLib (demoSys 1000) demoAuthURL "u" "Default" ""
      demoTokenFile "T" demoTokenEntry rfl rfl rfl).1 (by decide),
   (LoadCachedToken_expired_or_fresh demoLib (demoSys 50) demoAuthURL "u" "Default" ""
      demoTokenFile "T" demoTokenEntry rfl rfl rfl).2 (by decide)⟩

/-! ## C4 -/

/-- C4 (counterexample): the demo token entry expires at `100`; read at the
exact instant `now = 100` it is returned with `found = true`, although `now` is
not strictly earlier than `expires_at`. -/
theorem LoadCachedToken_found_at_expiry :
    (LoadCachedToken demoLib (demoSys 100) demoAuthURL "u" "Default" "").1 = ("tok", true)
      ∧ ¬ ((demoSys 100).now < demoTokenEntry.ExpiresAt) := by
  decide

/-- C4 (amended): when the cache file holds a parseable token entry,
`LoadCachedToken` reports `found = true` exactly when `now` is not after
`expires_at`, that is `now ≤ expires_at`; the instant `now = expires_at` counts
as still valid. -/
theorem LoadCachedToken_found_iff_not_after (lib : Lib) (s : Sys)
    (authURL username userDomain projectID cacheFile data : String) (entry : TokenCacheEntry)
    (hpath : getTokenCacheFilePath lib s authURL username userDomain projectID = .ok cacheFile)
    (hread : s.ReadFile cacheFile = some data)
    (hparse : lib.unmarshalTokenCacheEntry data = some entry) :
    (LoadCachedToken lib s authURL username userDomain projectID).1.2 = true
      ↔ s.now ≤ entry.ExpiresAt := by
  by_cases h : entry.ExpiresAt < s.now
  · simp [LoadCachedToken, hpath, hread, hparse, Time.After, h]
  · simp only [LoadCachedToken, hpath, hread, hparse, Time.After, gt_iff_lt, h, decide_False]
    simp only [Bool.false_eq_true, if_false, true_iff]
    omega

/-- Witness for C4 (amended), at `now = expires_at = 100`. -/
theorem LoadCachedToken_found_iff_not_after_witness :
    (LoadCachedToken demoLib (demoSys 100) demoAuthURL "u" "Default" "").1.2 = true
      ↔ (demoSys 100).now ≤ demoTokenEntry.ExpiresAt :=
  LoadCachedToken_found_iff_not_after demoLib (demoSys 100) demoAuthURL "u" "Default" ""
    demoTokenFile "T" demoTokenEntry rfl rfl rfl

/-! ## C5 -/

theorem expiryText_eq (expiresAt : String) :
    SaveTokenToCache.expiryText expiresAt
      = if HasSuffix expiresAt "Z" then expiresAt else expiresAt ++ "Z" := by
  unfold SaveTokenToCache.expiryText
  by_cases h : HasSuffix expiresAt "Z" = true
  · rw [if_pos h]
    obtain ⟨t, ht⟩ := (HasSuffix_iff _ _).mp h
    have e : expiresAt = (⟨t⟩ : String) ++ "Z" := by apply String.ext; simp [← ht]
    rw [e, TrimSuffix_append_self]
  · rw [if_neg h, TrimSuffix_of_not _ _ (by simpa using h)]

/-- C5 (counterexample): for the body `2024-01-01T00:00:00` the input with a
duplicated trailing `ZZ` is handed to the parser still ending in `ZZ`, not as
`body ++ "Z"`. -/
theorem expiryText_keeps_duplicated_Z :
    SaveTokenToCache.expiryText ("2024-01-01T00:00:00" ++ "ZZ") = "2024-01-01T00:00:00ZZ"
      ∧ SaveTokenToCache.expiryText ("2024-01-01T00:00:00" ++ "ZZ") ≠ "2024-01-01T00:00:00" ++ "Z"
      ∧ SaveTokenToCache.expiryText "2024-01-01T00:00:00" = "2024-01-01T00:00:00Z"
      ∧ SaveTokenToCache.expiryText "2024-01-01T00:00:00Z" = "2024-01-01T00:00:00Z" := by
  decide

/-- C5 (amended): the text handed to the timestamp parser is `expiresAt` itself
when it ends in `Z` and `expiresAt ++ "Z"` otherwise; so `body ++ "Z"` is passed
on as it is, for every `body`, and `body ++ "ZZ"` stays `body ++ "ZZ"`. -/
theorem expiryText_one_Z_added_when_missing (expiresAt body : String) :
    SaveTokenToCache.expiryText expiresAt
        = (if HasSuffix expiresAt "Z" then expiresAt else expiresAt ++ "Z")
      ∧ SaveTokenToCache.expiryText (body ++ "Z") = body ++ "Z"
      ∧ SaveTokenToCache.expiryText (body ++ "ZZ") = body ++ "ZZ" := by
  refine ⟨expiryText_eq expiresAt, ?_, ?_⟩
  · rw [expiryText_eq, HasSuffix_append_self, if_pos rfl]
  · have e : body ++ "ZZ" = (body ++ "Z") ++ "Z" := by apply String.ext; simp
    rw [e, expiryText_eq, HasSuffix_append_self, if_pos rfl]

/-! ## Lemmas on `LoadCachedProjects` -/

theorem LoadCachedProjects_hit (lib : Lib) (s : Sys) (authURL cacheFile data : String)
    (entry : CacheEntry) (hp : getCacheFilePath s authURL = .ok cacheFile)
    (hr : s.ReadFile cacheFile = some data) (hu : lib.unmarshalCacheEntry data = some entry)
    (he : entry.AuthURL = authURL) (ht : s.now - entry.Timestamp ≤ 7 * 24 * Hour) :
    LoadCachedProjects lib s authURL = (entry.Projects, true) := by
  have hgt : Duration.HoursGt (Time.Sub s.now entry.Timestamp) (24 * CacheExpiryDays) = false := by
    rw [← Bool.not_eq_true, HoursGt_Sub_iff]
    omega
  simp [LoadCachedProjects, hp, hr, hu, he, hgt]

/-! ## C6 -/

/-- C6: `LoadCachedProjects authURL` returns `found = true` exactly when the
cache file for `authURL` exists, parses as a cache entry, its stored `auth_url`
equals `authURL` and `now - timestamp ≤ 7 days`, and then it returns the stored
project list; in every other case it returns `(nil, false)`.  Its result type has
no error. -/
theorem LoadCachedProjects_found_iff (lib : Lib) (s : Sys) (authURL : String) :
    ((LoadCachedProjects lib s authURL).2 = true ↔
        ∃ cacheFile data entry, getCacheFilePath s authURL = .ok cacheFile
          ∧ s.ReadFile cacheFile = some data ∧ lib.unmarshalCacheEntry data = some entry
          ∧ entry.AuthURL = authURL ∧ s.now - entry.Timestamp ≤ 7 * 24 * Hour)
    ∧ (∀ cacheFile data entry, getCacheFilePath s authURL = .ok cacheFile →
          s.ReadFile cacheFile = some data → lib.unmarshalCacheEntry data = some entry →
          entry.AuthURL = authURL → s.now - entry.Timestamp ≤ 7 * 24 * Hour →
          LoadCachedProjects lib s authURL = (entry.Projects, true))
    ∧ ((LoadCachedProjects lib s authURL).2 = false →
          LoadCachedProjects lib s authURL = ([], false)) := by
  have key := LoadCachedProjects_hit lib s authURL
  refine ⟨⟨?_, ?_⟩, key, ?_⟩
  · intro h
    unfold LoadCachedProjects at h
    split at h
    · simp at h
    · rename_i cacheFile hp
      split at h
      · simp at h
      · rename_i data hr
        split at h
        · simp at h
        · rename_i entry hu
          split_ifs at h with he ht
          refine ⟨cacheFile, data, entry, hp, hr, hu, not_not.mp he, ?_⟩
          have := (HoursGt_Sub_iff s.now entry.Timestamp).not.mp ht
          omega
  · rintro ⟨cacheFile, data, entry, hp, hr, hu, he, ht⟩
    rw [key cacheFile data entry hp hr hu he ht]
  · intro h
    unfold LoadCachedProjects at h ⊢
    split
    · rfl
    · rename_i cacheFile hp
      rw [hp] at h
      simp only at h
      split
      · rfl
      · rename_i data hr
        rw [hr] at h
        simp only at h
        split
        · rfl
        · rename_i entry hu
          rw [hu] at h
          simp only at h
          split_ifs at h ⊢ with he ht <;> rfl

/-- Witness for C6: the demo entry was written at `1000`; read exactly 7 days
later it is found, one nanosecond after that it is not, and under another
`auth_url` or with an unparseable file it is not. -/
theorem LoadCachedProjects_found_iff_witness :
    LoadCachedProjects demoLib (demoSys (1000 + 7 * 24 * Hour)) demoAuthURL = (demoProjects, true)
      ∧ LoadCachedProjects demoLib (demoSys (1000 + 7 * 24 * Hour + 1)) demoAuthURL = ([], false)
      ∧ LoadCachedProjects demoLib (demoSys 1000) "http://k:5000" = ([], false)
      ∧ LoadCachedProjects demoLib
          ((demoSys 1000).WriteFile demoProjectsFile "garbage") demoAuthURL = ([], false) :=
  ⟨(LoadCachedProjects_found_iff demoLib (demoSys (1000 + 7 * 24 * Hour)) demoAuthURL).2.1
      demoProjectsFile "P" demoEntry rfl rfl rfl rfl (by decide),
    by decide, by decide, by decide⟩

/-! ## C7 -/

theorem getCacheFilePath_congr (s t : Sys) (authURL : String)
    (h1 : t.Getenv = s.Getenv) (h2 : t.UserHomeDir = s.UserHomeDir)
    (h3 : t.MkdirAll = s.MkdirAll) (h4 : t.Join = s.Join) :
    getCacheFilePath t authURL = getCacheFilePath s authURL := by
  simp [getCacheFilePath, getCacheDir, h1, h2, h3, h4]

/-- C7: when `encoding/json` gives the written entry back on reading, a
successful `SaveProjectsToCache authURL ps`, over any prior files, followed by
`LoadCachedProjects authURL` with the clock at most 7 days later returns
`(ps, true)`. -/
theorem SaveProjects_then_Load (lib : Lib) (s s' : Sys) (authURL : String) (ps : List Project)
    (later : Int)
    (hjson : ∀ data, lib.marshalCacheEntry ⟨ps, s.now, authURL⟩ = .ok data →
      lib.unmarshalCacheEntry data = some ⟨ps, s.now, authURL⟩)
    (hsave : SaveProjectsToCache lib s authURL ps = .ok s')
    (hlater : later - s.now ≤ 7 * 24 * Hour) :
    LoadCachedProjects lib { s' with now := later } authURL = (ps, true) := by
  unfold SaveProjectsToCache at hsave
  split at hsave
  · simp at hsave
  · rename_i cacheFile hp
    simp only at hsave
    split at hsave
    · simp at hsave
    · rename_i data hm
      have hs' : s' = s.WriteFile cacheFile data := by
        injection hsave with h
        exact h.symm
      subst hs'
      have hp' : getCacheFilePath { s.WriteFile cacheFile data with now := later } authURL
          = .ok cacheFile := by
        rw [← hp]
        exact getCacheFilePath_congr _ _ _ rfl rfl rfl rfl
      exact LoadCachedProjects_hit lib _ authURL cacheFile data
        ⟨ps, s.now, authURL⟩ hp' (ReadFile_WriteFile_self s cacheFile data) (hjson data hm) rfl
        hlater

/-- Witness for C7: saving `demoProjects` at instant `1000` over the demo files
(which already hold an entry under the same key) and loading exactly 7 days
later. -/
theorem SaveProjects_then_Load_witness :
    SaveProjectsToCache demoLib (demoSys 1000) demoAuthURL demoProjects
        = .ok ((demoSys 1000).WriteFile demoProjectsFile "P")
      ∧ LoadCachedProjects demoLib
          { (demoSys 1000).WriteFile demoProjectsFile "P" with now := 1000 + 7 * 24 * Hour }
          demoAuthURL = (demoProjects, true) :=
  ⟨rfl, SaveProjects_then_Load demoLib (demoSys 1000) _ demoAuthURL demoProjects
    (1000 + 7 * 24 * Hour) (by intro data h; cases h; rfl) rfl (by decide)⟩

/-! ## C8 -/

theorem tokenCacheKeyData_data (a u d p : String) :
    (tokenCacheKeyData a u d p).data
      = a.data ++ ('|' :: (u.data ++ ('|' :: (d.data ++ if p = "" then [] else '|' :: p.data)))) := by
  unfold tokenCacheKeyData
  by_cases h : p = ""
  · simp [h]
  · simp [h]

theorem projectSuffix_inj (p q : String)
    (h : (if p = "" then [] else '|' :: p.data) = (if q = "" then ([] : List Char) else '|' :: q.data)) :
    p = q := by
  by_cases hp : p = "" <;> by_cases hq : q = ""
  · rw [hp, hq]
  · simp [hp, hq] at h
  · simp [hp, hq] at h
  · simp only [hp, hq, if_false, List.cons.injEq, true_and] at h
    exact String.ext h

/-- C8: `generateTokenCacheKey` is the hash of
`auth_url ++ "|" ++ username ++ "|" ++ user_domain`, with `"|" ++ project_id`
appended exactly when `project_id` is non-empty; for two tuples that differ in
exactly one of the four components the hashed strings differ, and so do the
keys when the hash is injective. -/
theorem generateTokenCacheKey_one_component (lib : Lib) (a u d p a' u' d' p' : String)
    (hdiff : (a ≠ a' ∧ u = u' ∧ d = d' ∧ p = p') ∨ (a = a' ∧ u ≠ u' ∧ d = d' ∧ p = p')
      ∨ (a = a' ∧ u = u' ∧ d ≠ d' ∧ p = p') ∨ (a = a' ∧ u = u' ∧ d = d' ∧ p ≠ p')) :
    generateTokenCacheKey lib a u d p
        = lib.sha256hex (a ++ "|" ++ u ++ "|" ++ d ++ (if p = "" then "" else "|" ++ p))
      ∧ tokenCacheKeyData a u d p ≠ tokenCacheKeyData a' u' d' p'
      ∧ (Function.Injective lib.sha256hex →
          generateTokenCacheKey lib a u d p ≠ generateTokenCacheKey lib a' u' d' p') := by
  have hne : tokenCacheKeyData a u d p ≠ tokenCacheKeyData a' u' d' p' := by
    intro h
    have hd := congrArg String.data h
    rw [tokenCacheKeyData_data, tokenCacheKeyData_data] at hd
    rcases hdiff with ⟨h1, rfl, rfl, rfl⟩ | ⟨rfl, h1, rfl, rfl⟩ | ⟨rfl, rfl, h1, rfl⟩
      | ⟨rfl, rfl, rfl, h1⟩
    · exact h1 (String.ext (List.append_cancel_right hd))
    · have h2 := List.cons.inj (List.append_cancel_left hd)
      exact h1 (String.ext (List.append_cancel_right h2.2))
    · have h2 := List.cons.inj (List.append_cancel_left hd)
      have h3 := List.cons.inj (List.append_cancel_left h2.2)
      exact h1 (String.ext (List.append_cancel_right h3.2))
    · have h2 := List.cons.inj (List.append_cancel_left hd)
      have h3 := List.cons.inj (List.append_cancel_left h2.2)
      exact h1 (projectSuffix_inj _ _ (List.append_cancel_left h3.2))
  refine ⟨?_, hne, fun hinj h => hne (hinj h)⟩
  unfold generateTokenCacheKey tokenCacheKeyData
  congr 1
  by_cases h : p = ""
  · simp only [h, ne_eq, not_true_eq_false, if_false, if_true]
    apply String.ext; simp
  · simp [h]

/-- Witness for C8: an unscoped and a project-scoped tuple that differ only in
the project id, under the identity hash. -/
theorem generateTokenCacheKey_one_component_witness :
    generateTokenCacheKey demoLib demoAuthURL "u" "Default" ""
        = demoLib.sha256hex (demoAuthURL ++ "|" ++ "u" ++ "|" ++ "Default"
            ++ (if "" = "" then "" else "|" ++ ""))
      ∧ tokenCacheKeyData demoAuthURL "u" "Default" ""
          ≠ tokenCacheKeyData demoAuthURL "u" "Default" "p1"
      ∧ (Function.Injective demoLib.sha256hex →
          generateTokenCacheKey demoLib demoAuthURL "u" "Default" ""
            ≠ generateTokenCacheKey demoLib demoAuthURL "u" "Default" "p1") :=
  generateTokenCacheKey_one_component demoLib demoAuthURL "u" "Default" "" demoAuthURL "u"
    "Default" "p1" (Or.inr (Or.inr (Or.inr ⟨rfl, rfl, rfl, by decide⟩)))

/-! ## C9 -/

theorem insertByLess_perm {α : Type} (less : α → α → Bool) (x : α) (l : List α) :
    (insertByLess less x l).Perm (x :: l) := by
  induction l with
  | nil => exact List.Perm.refl _
  | cons y ys ih =>
    unfold insertByLess
    split_ifs
    · exact List.Perm.refl _
    · exact ((List.Perm.cons y ih).trans (List.Perm.swap x y ys))

theorem sortSlice_perm {α : Type} (less : α → α → Bool) (l : List α) :
    (sortSlice less l).Perm l := by
  induction l with
  | nil => exact List.Perm.refl _
  | cons x xs ih =>
    exact (insertByLess_perm less x _).trans (List.Perm.cons x ih)

theorem insertByLess_pairwise {α : Type} (less : α → α → Bool)
    (hasym : ∀ a b, less a b = true → less b a = false)
    (htrans : ∀ a b c, less b a = false → less c b = false → less c a = false)
    (x : α) (l : List α) (hl : l.Pairwise (fun a b => less b a = false)) :
    (insertByLess less x l).Pairwise (fun a b => less b a = false) := by
  induction l with
  | nil => simp [insertByLess]
  | cons y ys ih =>
    have hy := List.pairwise_cons.mp hl
    unfold insertByLess
    split_ifs with hxy
    · refine List.pairwise_cons.mpr ⟨?_, hl⟩
      intro z hz
      rcases List.mem_cons.mp hz with rfl | hz
      · exact hasym _ _ hxy
      · exact htrans x y z (hasym _ _ hxy) (hy.1 z hz)
    · refine List.pairwise_cons.mpr ⟨?_, ih hy.2⟩
      intro z hz
      rcases List.mem_cons.mp ((insertByLess_perm less x ys).mem_iff.mp hz) with rfl | hz
      · simpa using hxy
      · exact hy.1 z hz

theorem sortSlice_pairwise {α : Type} (less : α → α → Bool)
    (hasym : ∀ a b, less a b = true → less b a = false)
    (htrans : ∀ a b c, less b a = false → less c b = false → less c a = false)
    (l : List α) : (sortSlice less l).Pairwise (fun a b => less b a = false) := by
  induction l with
  | nil => simp [sortSlice]
  | cons x xs ih => exact insertByLess_pairwise less hasym htrans x _ ih

theorem less_eq_false_iff (a b : Project) :
    ListProjects.less b a = false ↔ a.Name.data ≤ b.Name.data := by
  simp [ListProjects.less]

theorem collect_eq_aux (items : List ProjectsResponseItem) (acc : List Project) :
    items.foldl (fun projects p =>
        if p.Enabled then
          projects ++ [{ ID := p.ID, Name := p.Name, Description := p.Description }]
        else projects) acc
      = acc ++ (items.filter (fun p => p.Enabled)).map
          (fun p => ({ ID := p.ID, Name := p.Name, Description := p.Description } : Project)) := by
  induction items generalizing acc with
  | nil => simp
  | cons p ps ih =>
    rw [List.foldl_cons, ih]
    by_cases h : p.Enabled = true
    · simp [h]
    · simp [h]

theorem collect_eq (items : List ProjectsResponseItem) :
    ListProjects.collect items
      = (items.filter (fun p => p.Enabled)).map
          (fun p => ({ ID := p.ID, Name := p.Name, Description := p.Description } : Project)) := by
  unfold ListProjects.collect
  rw [collect_eq_aux]
  simp

theorem ListProjects_result_sorted (projectsResp : ProjectsResponse) :
    (ListProjects.result projectsResp).Pairwise (fun a b => a.Name.data ≤ b.Name.data) := by
  have h := sortSlice_pairwise ListProjects.less
    (fun a b hab => by
      rw [less_eq_false_iff]
      exact le_of_lt (by simpa [ListProjects.less] using hab))
    (fun a b c h1 h2 => by
      rw [less_eq_false_iff] at *
      exact le_trans h1 h2)
    (ListProjects.collect projectsResp.Projects)
  exact h.imp (fun hab => (less_eq_false_iff _ _).mp hab)

theorem ListProjects_result_perm (projectsResp : ProjectsResponse) :
    (ListProjects.result projectsResp).Perm
      ((projectsResp.Projects.filter (fun p => p.Enabled)).map
        (fun p => ({ ID := p.ID, Name := p.Name, Description := p.Description } : Project))) := by
  unfold ListProjects.result
  rw [← collect_eq]
  exact sortSlice_perm _ _

/-- C9: when the listing request answers `200` and its body parses to
`projectsResp`, `ListProjects` succeeds, and the list it returns is sorted
ascending by name (Go's string order) and is a permutation of the entries of
`projectsResp` with `enabled = true`, each mapped to `{id, name, description}`;
duplicate names are allowed. -/
theorem ListProjects_sorted_enabled (lib : Lib) (net : Net) (authURL token : String)
    (resp : Response) (projectsResp : ProjectsResponse)
    (hget : net.Get (ListProjects.requestURL authURL) token = .ok resp)
    (hstatus : resp.StatusCode = 200) (hread : resp.ReadErr = none)
    (hparse : lib.unmarshalProjectsResponse resp.Body = .ok projectsResp) :
    ∃ ps, (ListProjects lib net authURL token).2 = .ok ps
      ∧ ps.Pairwise (fun a b => a.Name.data ≤ b.Name.data)
      ∧ ps.Perm ((projectsResp.Projects.filter (fun p => p.Enabled)).map
          (fun p => ({ ID := p.ID, Name := p.Name, Description := p.Description } : Project))) := by
  refine ⟨ListProjects.result projectsResp, ?_, ListProjects_result_sorted projectsResp,
    ListProjects_result_perm projectsResp⟩
  simp [ListProjects, hget, hstatus, hread, hparse]

/-- Witness for C9: the demo listing holds `beta` (enabled), `gamma` (disabled)
and `alpha` (enabled), in that order. -/
theorem ListProjects_sorted_enabled_witness :
    ∃ ps, (ListProjects demoLib demoNet demoAuthURL "tok").2 = .ok ps
      ∧ ps.Pairwise (fun a b => a.Name.data ≤ b.Name.data)
      ∧ ps.Perm ((demoListing.Projects.filter (fun p => p.Enabled)).map
          (fun p => ({ ID := p.ID, Name := p.Name, Description := p.Description } : Project))) :=
  ListProjects_sorted_enabled demoLib demoNet demoAuthURL "tok"
    ⟨200, "200 OK", "", "R", none⟩ demoListing rfl rfl rfl rfl

/-! ## C10 -/

theorem totp_fields (net : Net) (creds creds' : Credentials) (t0 : List Event)
    (h : main.totp net creds = (t0, .ok creds')) :
    creds' = { creds with TOTPCode := creds'.TOTPCode } := by
  unfold main.totp at h
  split_ifs at h
  · cases hp : net.PromptForTOTP with
    | error e => simp [hp] at h
    | ok code =>
      simp only [hp, Prod.mk.injEq, Except.ok.injEq] at h
      rw [← h.2]
  · simp only [Prod.mk.injEq, Except.ok.injEq] at h
    rw [← h.2]

theorem GetUnscopedToken_trace (net : Net) (creds : Credentials) :
    (GetUnscopedToken net creds).1
      = [Event.Post (getUrlPath creds.AuthURL "/v3/auth/tokens?nocatalog")
          (Json.obj [("auth", Json.obj [("identity", Json.obj (passwordIdentity creds))])])] :=
  rfl

theorem totp_of_app (net : Net) (creds : Credentials)
    (happ : creds.IsApplicationCredential = true) : main.totp net creds = ([], .ok creds) := by
  simp [main.totp, happ]

theorem GetApplicationCredentialToken_trace (lib : Lib) (net : Net) (creds : Credentials) :
    (GetApplicationCredentialToken lib net creds).1
      = [Event.Post (getUrlPath creds.AuthURL "/v3/auth/tokens")
          (Json.obj [("auth", Json.obj [("identity", Json.obj [
            ("methods", Json.arr [Json.str "application_credential"]),
            ("application_credential", Json.obj [
              ("id", Json.str creds.ApplicationCredentialID),
              ("secret", Json.str creds.ApplicationCredentialSecret)])])])])] :=
  rfl

/-! ## C11 -/

theorem GetApplicationCredentialToken_congr (lib : Lib) (net net' : Net) (creds : Credentials)
    (h : net'.Post (getUrlPath creds.AuthURL "/v3/auth/tokens")
          (Json.obj [("auth", Json.obj [("identity", Json.obj [
            ("methods", Json.arr [Json.str "application_credential"]),
            ("application_credential", Json.obj [
              ("id", Json.str creds.ApplicationCredentialID),
              ("secret", Json.str creds.ApplicationCredentialSecret)])])])])
        = net.Post (getUrlPath creds.AuthURL "/v3/auth/tokens")
          (Json.obj [("auth", Json.obj [("identity", Json.obj [
            ("methods", Json.arr [Json.str "application_credential"]),
            ("application_credential", Json.obj [
              ("id", Json.str creds.ApplicationCredentialID),
              ("secret", Json.str creds.ApplicationCredentialSecret)])])])])) :
    GetApplicationCredentialToken lib net' creds = GetApplicationCredentialToken lib net creds := by
  simp only [GetApplicationCredentialToken, h]

theorem GetApplicationCredentialToken_ok (lib : Lib) (net : Net) (creds : Credentials)
    (resp : Response) (tokenResponse : TokenResponse)
    (hpost : net.Post (getUrlPath creds.AuthURL "/v3/auth/tokens")
          (Json.obj [("auth", Json.obj [("identity", Json.obj [
            ("methods", Json.arr [Json.str "application_credential"]),
            ("application_credential", Json.obj [
              ("id", Json.str creds.ApplicationCredentialID),
              ("secret", Json.str creds.ApplicationCredentialSecret)])])])])
        = .ok resp)
    (hread : resp.ReadErr = none) (hstatus : resp.StatusCode = 201)
    (htoken : resp.SubjectToken ≠ "")
    (hbody : lib.unmarshalTokenResponse resp.Body = .ok tokenResponse) :
    (GetApplicationCredentialToken lib net creds).2 = .ok (resp.SubjectToken, tokenResponse) := by
  simp only [GetApplicationCredentialToken, hpost, hread, hstatus, htoken, hbody, ne_eq,
    not_true_eq_false, if_false]

theorem main_app_eq (lib : Lib) (net : Net) (sys : Sys) (credFile : CredentialFile)
    (creds : Credentials) (happ : creds.IsApplicationCredential = true) :
    main lib net sys credFile creds
      = ((GetApplicationCredentialToken lib net creds).1,
          match (GetApplicationCredentialToken lib net creds).2 with
          | .error err => .exit ("Error getting application credential token: " ++ err ++ "\n")
          | .ok (token, tokenResponse) =>
            .ok (outputEnvironmentVars credFile
              ⟨tokenResponse.Token.Project.ID, tokenResponse.Token.Project.Name, ""⟩
              token creds)) := by
  unfold main
  rw [totp_of_app net creds happ]
  simp only [happ, if_true]
  rcases GetApplicationCredentialToken lib net creds with ⟨t1, r⟩
  cases r <;> rfl

/-- C11: for a record with both application-credential fields non-empty,
whatever `totp_required`, `system_scope`, `project_id` and `project_name` are:
the run makes exactly one call, the POST of the application-credential identity
to `{base}/v3/auth/tokens`; the run is the same on every network that answers
this one request the same way (so neither the TOTP prompt nor any other request
is consulted); and when this request is answered with `201`, a token and a body
that parses, the run ends with that token and the project carried in that
response. -/
theorem main_application_credential (lib : Lib) (net : Net) (sys : Sys)
    (credFile : CredentialFile) (creds : Credentials)
    (hid : creds.ApplicationCredentialID ≠ "") (hsecret : creds.ApplicationCredentialSecret ≠ "") :
    (main lib net sys credFile creds).1
        = [Event.Post (getUrlPath creds.AuthURL "/v3/auth/tokens")
            (Json.obj [("auth", Json.obj [("identity", Json.obj [
              ("methods", Json.arr [Json.str "application_credential"]),
              ("application_credential", Json.obj [
                ("id", Json.str creds.ApplicationCredentialID),
                ("secret", Json.str creds.ApplicationCredentialSecret)])])])])]
      ∧ (∀ net' : Net,
          net'.Post (getUrlPath creds.AuthURL "/v3/auth/tokens")
              (Json.obj [("auth", Json.obj [("identity", Json.obj [
                ("methods", Json.arr [Json.str "application_credential"]),
                ("application_credential", Json.obj [
                  ("id", Json.str creds.ApplicationCredentialID),
                  ("secret", Json.str creds.ApplicationCredentialSecret)])])])])
            = net.Post (getUrlPath creds.AuthURL "/v3/auth/tokens")
              (Json.obj [("auth", Json.obj [("identity", Json.obj [
                ("methods", Json.arr [Json.str "application_credential"]),
                ("application_credential", Json.obj [
                  ("id", Json.str creds.ApplicationCredentialID),
                  ("secret", Json.str creds.ApplicationCredentialSecret)])])])]) →
          main lib net' sys credFile creds = main lib net sys credFile creds)
      ∧ ∀ resp tokenResponse,
          net.Post (getUrlPath creds.AuthURL "/v3/auth/tokens")
              (Json.obj [("auth", Json.obj [("identity", Json.obj [
                ("methods", Json.arr [Json.str "application_credential"]),
                ("application_credential", Json.obj [
                  ("id", Json.str creds.ApplicationCredentialID),
                  ("secret", Json.str creds.ApplicationCredentialSecret)])])])])
            = .ok resp →
          resp.ReadErr = none → resp.StatusCode = 201 → resp.SubjectToken ≠ "" →
          lib.unmarshalTokenResponse resp.Body = .ok tokenResponse →
          (main lib net sys credFile creds).2
            = .ok (outputEnvironmentVars credFile
                ⟨tokenResponse.Token.Project.ID, tokenResponse.Token.Project.Name, ""⟩
                resp.SubjectToken creds)
          ∧ "export OS_PROJECT_ID=" ++ tokenResponse.Token.Project.ID
              ∈ outputEnvironmentVars credFile
                ⟨tokenResponse.Token.Project.ID, tokenResponse.Token.Project.Name, ""⟩
                resp.SubjectToken creds
          ∧ "export OS_TOKEN=" ++ resp.SubjectToken
              ∈ outputEnvironmentVars credFile
                ⟨tokenResponse.Token.Project.ID, tokenResponse.Token.Project.Name, ""⟩
                resp.SubjectToken creds := by
  have happ : creds.IsApplicationCredential = true := by
    simp [Credentials.IsApplicationCredential, hid, hsecret]
  refine ⟨?_, ?_, ?_⟩
  · rw [main_app_eq lib net sys credFile creds happ]
    exact GetApplicationCredentialToken_trace lib net creds
  · intro net' h
    rw [main_app_eq lib net' sys credFile creds happ, main_app_eq lib net sys credFile creds happ,
      GetApplicationCredentialToken_congr lib net net' creds h]
  · intro resp tokenResponse hpost hread hstatus htoken hbody
    refine ⟨?_, by simp [outputEnvironmentVars], by simp [outputEnvironmentVars]⟩
    rw [main_app_eq lib net sys credFile creds happ]
    simp only [GetApplicationCredentialToken_ok lib net creds resp tokenResponse hpost hread
      hstatus htoken hbody]

/-- Witness for C11: the application-credential record also has
`totp_required`, `system_scope = "all"`, `project_id` and `project_name` set;
the service answers `201` with token `tok123` and project `abc`; a network whose
TOTP prompt fails gives the same run. -/
theorem main_application_credential_witness :
    (main devLib devNet (demoSys 1000) demoCredFile appCreds).1
        = [Event.Post "http://k:5000/v3/auth/tokens"
            (Json.obj [("auth", Json.obj [("identity", Json.obj [
              ("methods", Json.arr [Json.str "application_credential"]),
              ("application_credential", Json.obj [
                ("id", Json.str "ac1"), ("secret", Json.str "s3cret")])])])])]
      ∧ main devLib { devNet with PromptForTOTP := .error "no terminal" } (demoSys 1000)
            demoCredFile appCreds
          = main devLib devNet (demoSys 1000) demoCredFile appCreds
      ∧ (main devLib devNet (demoSys 1000) demoCredFile appCreds).2
          = .ok (outputEnvironmentVars demoCredFile ⟨"abc", "dev", ""⟩ "tok123" appCreds)
      ∧ "export OS_PROJECT_ID=" ++ "abc"
          ∈ outputEnvironmentVars demoCredFile ⟨"abc", "dev", ""⟩ "tok123" appCreds :=
  have h := main_application_credential devLib devNet (demoSys 1000) demoCredFile appCreds
    (by decide) (by decide)
  have h3 := h.2.2 ⟨201, "201 Created", "tok123", devBody, none⟩ devTokenResponse rfl rfl rfl
    (by decide) rfl
  ⟨h.1, h.2.1 _ rfl, h3.1, h3.2.1⟩

/-! ## Lemmas on the TOTP step and on the output lines -/

theorem totp_cases (net : Net) (creds : Credentials) :
    main.totp net creds = ([], .ok creds)
      ∨ (∃ code, main.totp net creds = ([Event.PromptForTOTP], .ok { creds with TOTPCode := code }))
      ∨ ∃ err, main.totp net creds = ([Event.PromptForTOTP], .error err) := by
  unfold main.totp
  split_ifs
  · cases net.PromptForTOTP with
    | error e => exact Or.inr (Or.inr ⟨e, rfl⟩)
    | ok code => exact Or.inr (Or.inl ⟨code, rfl⟩)
  · exact Or.inl rfl

theorem totp_no_request (net : Net) (creds : Credentials) :
    (main.totp net creds).1.filter Event.isRequest = [] := by
  rcases totp_cases net creds with h | ⟨_, h⟩ | ⟨_, h⟩ <;> rw [h] <;> rfl

theorem line_ne_of_take (n : Nat) (a b : String) (h : a.data.take n ≠ b.data.take n) : a ≠ b :=
  fun e => h (by rw [e])

theorem projectIdLine_ne (x l : String)
    (h : l.data.take 11 ≠ ['e', 'x', 'p', 'o', 'r', 't', ' ', 'O', 'S', '_', 'P']) :
    "export OS_PROJECT_ID=" ++ x ≠ l := by
  apply line_ne_of_take 11
  rw [String.data_append, List.take_append_of_le_length (by decide)]
  exact fun e => h e.symm

theorem systemScopeVars_no_project_id (credFile : CredentialFile) (token : String)
    (creds : Credentials) (x : String) :
    "export OS_PROJECT_ID=" ++ x ∉ outputSystemScopeVars credFile token creds := by
  unfold outputSystemScopeVars
  intro h
  rcases List.mem_append.mp h with h | h
  · simp only [List.mem_cons, List.mem_singleton, List.not_mem_nil, or_false] at h
    rcases h with h | h | h | h | h | h
    all_goals
      refine projectIdLine_ne x _ ?_ h
      simp only [String.data_append, List.append_assoc]
      first
        | decide
        | (rw [List.take_append_of_le_length (by decide)]; decide)
  · split_ifs at h
    · simp only [List.mem_singleton] at h
      refine projectIdLine_ne x _ ?_ h
      rw [String.data_append, List.take_append_of_le_length (by decide)]
      decide
    · simp at h

theorem main_totp_error (lib : Lib) (net : Net) (sys : Sys) (credFile : CredentialFile)
    (creds : Credentials) (t0 : List Event) (err : String)
    (htotp : main.totp net creds = (t0, .error err)) :
    main lib net sys credFile creds = (t0, .exit ("Error reading TOTP code: " ++ err ++ "\n")) := by
  unfold main
  rw [htotp]

theorem GetScopedToken_trace (net : Net) (creds : Credentials) (projectID : String) :
    (GetScopedToken net creds projectID).1
      = [Event.Post (getUrlPath creds.AuthURL "/v3/auth/tokens")
          (Json.obj [("auth", Json.obj [
            ("identity", Json.obj (passwordIdentity creds)),
            ("scope", Json.obj [("project", Json.obj [("id", Json.str projectID)])])])])] :=
  rfl

theorem main_system_scope_eq (lib : Lib) (net : Net) (sys : Sys) (credFile : CredentialFile)
    (creds creds' : Credentials) (t0 : List Event)
    (happ : creds.IsApplicationCredential = false) (hsys : creds.SystemScope ≠ "")
    (htotp : main.totp net creds = (t0, .ok creds')) :
    main lib net sys credFile creds
      = (t0 ++ (GetUnscopedToken net creds').1,
          match (GetUnscopedToken net creds').2 with
          | .error err => .exit ("Error getting unscoped token: " ++ err ++ "\n")
          | .ok token => .ok (outputSystemScopeVars credFile token creds')) := by
  have hf := totp_fields net creds creds' t0 htotp
  have happ' : creds'.IsApplicationCredential = false := by rw [hf]; exact happ
  have hsys' : creds'.SystemScope ≠ "" := by rw [hf]; exact hsys
  unfold main
  rw [htotp]
  simp only [happ', hsys', ne_eq, not_false_eq_true, if_true, Bool.false_eq_true, if_false]
  rcases GetUnscopedToken net creds' with ⟨t1, r⟩
  cases r <;> rfl

theorem main_project_id_eq (lib : Lib) (net : Net) (sys : Sys) (credFile : CredentialFile)
    (creds creds' : Credentials) (t0 : List Event)
    (happ : creds.IsApplicationCredential = false) (hsys : creds.SystemScope = "")
    (hid : creds.ProjectID ≠ "") (htotp : main.totp net creds = (t0, .ok creds')) :
    main lib net sys credFile creds
      = (t0 ++ (GetScopedToken net creds' creds.ProjectID).1,
          match (GetScopedToken net creds' creds.ProjectID).2 with
          | .error err => .exit ("Error getting scoped token: " ++ err ++ "\n")
          | .ok scopedToken =>
            .ok (outputEnvironmentVars credFile ⟨creds.ProjectID, creds.ProjectName, ""⟩
              scopedToken creds')) := by
  have hf := totp_fields net creds creds' t0 htotp
  have happ' : creds'.IsApplicationCredential = false := by rw [hf]; exact happ
  have hsys' : creds'.SystemScope = "" := by rw [hf]; exact hsys
  have hid' : creds'.ProjectID = creds.ProjectID := by rw [hf]
  have hname' : creds'.ProjectName = creds.ProjectName := by rw [hf]
  have hproj' : creds'.HasProjectDefined = true := by
    simp [Credentials.HasProjectDefined, hid', hid]
  unfold main
  rw [htotp]
  simp only [happ', hsys', hproj', hid', hname', hid, ne_eq, not_true_eq_false,
    not_false_eq_true, if_true, Bool.false_eq_true, if_false]
  rcases GetScopedToken net creds' creds.ProjectID with ⟨t1, r⟩
  cases r <;> rfl

theorem totp_congr (net net' : Net) (creds : Credentials)
    (h : net'.PromptForTOTP = net.PromptForTOTP) : main.totp net' creds = main.totp net creds := by
  simp only [main.totp, h]

theorem GetUnscopedToken_congr (net net' : Net) (creds : Credentials)
    (h : net'.Post (getUrlPath creds.AuthURL "/v3/auth/tokens?nocatalog")
          (Json.obj [("auth", Json.obj [("identity", Json.obj (passwordIdentity creds))])])
        = net.Post (getUrlPath creds.AuthURL "/v3/auth/tokens?nocatalog")
          (Json.obj [("auth", Json.obj [("identity", Json.obj (passwordIdentity creds))])])) :
    GetUnscopedToken net' creds = GetUnscopedToken net creds := by
  simp only [GetUnscopedToken, h]

theorem GetUnscopedToken_ok (net : Net) (creds : Credentials) (resp : Response)
    (hpost : net.Post (getUrlPath creds.AuthURL "/v3/auth/tokens?nocatalog")
          (Json.obj [("auth", Json.obj [("identity", Json.obj (passwordIdentity creds))])])
        = .ok resp)
    (hread : resp.ReadErr = none) (hstatus : resp.StatusCode = 201)
    (htoken : resp.SubjectToken ≠ "") :
    (GetUnscopedToken net creds).2 = .ok resp.SubjectToken := by
  simp only [GetUnscopedToken, hpost, hread, hstatus, htoken, ne_eq, not_true_eq_false, if_false]

theorem GetScopedToken_congr (net net' : Net) (creds : Credentials) (projectID : String)
    (h : net'.Post (getUrlPath creds.AuthURL "/v3/auth/tokens")
          (Json.obj [("auth", Json.obj [
            ("identity", Json.obj (passwordIdentity creds)),
            ("scope", Json.obj [("project", Json.obj [("id", Json.str projectID)])])])])
        = net.Post (getUrlPath creds.AuthURL "/v3/auth/tokens")
          (Json.obj [("auth", Json.obj [
            ("identity", Json.obj (passwordIdentity creds)),
            ("scope", Json.obj [("project", Json.obj [("id", Json.str projectID)])])])])) :
    GetScopedToken net' creds projectID = GetScopedToken net creds projectID := by
  simp only [GetScopedToken, h]

theorem GetScopedToken_ok (net : Net) (creds : Credentials) (projectID : String)
    (resp : Response)
    (hpost : net.Post (getUrlPath creds.AuthURL "/v3/auth/tokens")
          (Json.obj [("auth", Json.obj [
            ("identity", Json.obj (passwordIdentity creds)),
            ("scope", Json.obj [("project", Json.obj [("id", Json.str projectID)])])])])
        = .ok resp)
    (hread : resp.ReadErr = none) (hstatus : resp.StatusCode = 201)
    (htoken : resp.SubjectToken ≠ "") :
    (GetScopedToken net creds projectID).2 = .ok resp.SubjectToken := by
  simp only [GetScopedToken, hpost, hread, hstatus, htoken, ne_eq, not_true_eq_false, if_false]

theorem totp_trace_no_request (net : Net) (creds : Credentials) (t0 : List Event)
    (r : Except String Credentials) (htotp : main.totp net creds = (t0, r)) :
    t0.filter Event.isRequest = [] := by
  have h := totp_no_request net creds
  rw [htotp] at h
  exact h

/-! ## C12 -/

/-- C12: for a password-based record with non-empty `system_scope`, whatever
`project_id` and `project_name` are.  When the TOTP prompt fails the run exits
without any request.  Otherwise the only request of the run is the POST of the
password identity, with no `scope`, to `{base}/v3/auth/tokens?nocatalog` (the
unscoped-token request): it is the one call after the TOTP step, the run is the
same on every network that answers the prompt and this one request the same
way, and when it is answered with `201` and a token the output carries that
token and the line `OS_SYSTEM_SCOPE=<system_scope>`, and no `OS_PROJECT_ID`
line. -/
theorem main_system_scope (lib : Lib) (net : Net) (sys : Sys) (credFile : CredentialFile)
    (creds : Credentials)
    (happ : creds.IsApplicationCredential = false) (hsys : creds.SystemScope ≠ "") :
    (∀ t0 err, main.totp net creds = (t0, .error err) →
        main lib net sys credFile creds = (t0, .exit ("Error reading TOTP code: " ++ err ++ "\n"))
        ∧ t0.filter Event.isRequest = [])
      ∧ ∀ t0 creds', main.totp net creds = (t0, .ok creds') →
          t0.filter Event.isRequest = []
          ∧ (main lib net sys credFile creds).1
            = t0 ++ [Event.Post (getUrlPath creds.AuthURL "/v3/auth/tokens?nocatalog")
                (Json.obj [("auth", Json.obj [("identity", Json.obj (passwordIdentity creds'))])])]
          ∧ (∀ net' : Net, net'.PromptForTOTP = net.PromptForTOTP →
              net'.Post (getUrlPath creds.AuthURL "/v3/auth/tokens?nocatalog")
                  (Json.obj [("auth", Json.obj [("identity", Json.obj (passwordIdentity creds'))])])
                = net.Post (getUrlPath creds.AuthURL "/v3/auth/tokens?nocatalog")
                  (Json.obj [("auth", Json.obj [("identity", Json.obj (passwordIdentity creds'))])]) →
              main lib net' sys credFile creds = main lib net sys credFile creds)
          ∧ ∀ resp,
              net.Post (getUrlPath creds.AuthURL "/v3/auth/tokens?nocatalog")
                  (Json.obj [("auth", Json.obj [("identity", Json.obj (passwordIdentity creds'))])])
                = .ok resp →
              resp.ReadErr = none → resp.StatusCode = 201 → resp.SubjectToken ≠ "" →
              (main lib net sys credFile creds).2
                = .ok (outputSystemScopeVars credFile resp.SubjectToken creds')
              ∧ "export OS_SYSTEM_SCOPE=" ++ creds.SystemScope
                  ∈ outputSystemScopeVars credFile resp.SubjectToken creds'
              ∧ "export OS_TOKEN=" ++ resp.SubjectToken
                  ∈ outputSystemScopeVars credFile resp.SubjectToken creds'
              ∧ ∀ x, "export OS_PROJECT_ID=" ++ x
                  ∉ outputSystemScopeVars credFile resp.SubjectToken creds' := by
  refine ⟨?_, ?_⟩
  · intro t0 err htotp
    exact ⟨main_totp_error lib net sys credFile creds t0 err htotp,
      totp_trace_no_request net creds t0 _ htotp⟩
  · intro t0 creds' htotp
    have hf := totp_fields net creds creds' t0 htotp
    have hurl : creds'.AuthURL = creds.AuthURL := by rw [hf]
    have hsc : creds'.SystemScope = creds.SystemScope := by rw [hf]
    refine ⟨totp_trace_no_request net creds t0 _ htotp, ?_, ?_, ?_⟩
    · rw [main_system_scope_eq lib net sys credFile creds creds' t0 happ hsys htotp]
      simp only [GetUnscopedToken_trace, hurl]
    · intro net' hprompt hpost
      have htotp' : main.totp net' creds = (t0, .ok creds') := by
        rw [totp_congr net net' creds hprompt, htotp]
      rw [← hurl] at hpost
      rw [main_system_scope_eq lib net' sys credFile creds creds' t0 happ hsys htotp',
        main_system_scope_eq lib net sys credFile creds creds' t0 happ hsys htotp,
        GetUnscopedToken_congr net net' creds' hpost]
    · intro resp hpost hread hstatus htoken
      rw [← hurl] at hpost
      rw [main_system_scope_eq lib net sys credFile creds creds' t0 happ hsys htotp]
      refine ⟨?_, by simp [outputSystemScopeVars, hsc], by simp [outputSystemScopeVars],
        systemScopeVars_no_project_id credFile resp.SubjectToken creds'⟩
      simp only [GetUnscopedToken_ok net creds' resp hpost hread hstatus htoken]

/-- Witness for C12: `system_scope = "all"` with `project_id`, `project_name` and
`totp_required` set: one prompt, then the unscoped request, and the output line
`OS_SYSTEM_SCOPE=all`; with a failing prompt the run exits after the prompt. -/
theorem main_system_scope_witness :
    (main demoLib failingPromptNet (demoSys 1000) demoCredFile sysCreds
        = ([Event.PromptForTOTP],
            .exit ("Error reading TOTP code: " ++ "failed to open /dev/tty: no such device"
              ++ "\n")))
      ∧ (main demoLib demoNet (demoSys 1000) demoCredFile sysCreds).1
          = [Event.PromptForTOTP]
            ++ [Event.Post (getUrlPath sysCreds.AuthURL "/v3/auth/tokens?nocatalog")
              (Json.obj [("auth", Json.obj [("identity",
                Json.obj (passwordIdentity { sysCreds with TOTPCode := "123456" }))])])]
      ∧ (main demoLib demoNet (demoSys 1000) demoCredFile sysCreds).2
          = .ok (outputSystemScopeVars demoCredFile "tok" { sysCreds with TOTPCode := "123456" })
      ∧ "export OS_SYSTEM_SCOPE=" ++ "all"
          ∈ outputSystemScopeVars demoCredFile "tok" { sysCreds with TOTPCode := "123456" } :=
  have hfail := (main_system_scope demoLib failingPromptNet (demoSys 1000) demoCredFile sysCreds
    (by decide) (by decide)).1 [Event.PromptForTOTP] _ rfl
  have h := (main_system_scope demoLib demoNet (demoSys 1000) demoCredFile sysCreds
    (by decide) (by decide)).2 [Event.PromptForTOTP] { sysCreds with TOTPCode := "123456" } rfl
  have h4 := h.2.2.2 ⟨201, "201 Created", "tok", "", none⟩ rfl rfl rfl (by decide)
  ⟨hfail.1, h.2.1, h4.1, h4.2.1⟩

/-! ## C13 -/

/-- C13 (counterexample): the record has empty `system_scope`, `project_id =
"p1"` and `totp_required` set, and the TOTP prompt fails: the run makes one
call, the prompt, which is not a request, and exits; no token request is
issued. -/
theorem main_project_id_no_request_when_prompt_fails :
    idTotpCreds.IsApplicationCredential = false ∧ idTotpCreds.SystemScope = ""
      ∧ idTotpCreds.ProjectID = "p1"
      ∧ (main demoLib failingPromptNet (demoSys 1000) demoCredFile idTotpCreds).1.map
          Event.isRequest = [false]
      ∧ (main demoLib failingPromptNet (demoSys 1000) demoCredFile idTotpCreds).2
          = .exit "Error reading TOTP code: failed to open /dev/tty: no such device\n" := by
  decide

/-- C13 (amended): for a password-based record with empty `system_scope` and
non-empty `project_id`, whether or not `project_name` is set.  When the TOTP
prompt fails the run exits without any request.  Otherwise the run issues
exactly one request, the POST of the password identity with `scope.project.id`
the record's `project_id` to `{base}/v3/auth/tokens` (the scoped-by-id request):
it is the one call after the TOTP step, the run is the same on every network
that answers the prompt and this one request the same way (so neither the
project listing nor the scoped-by-name request is consulted), and when it is
answered with `201` and a token the output carries that token and
`OS_PROJECT_ID=<project_id>`. -/
theorem main_project_id (lib : Lib) (net : Net) (sys : Sys) (credFile : CredentialFile)
    (creds : Credentials)
    (happ : creds.IsApplicationCredential = false) (hsys : creds.SystemScope = "")
    (hid : creds.ProjectID ≠ "") :
    (∀ t0 err, main.totp net creds = (t0, .error err) →
        main lib net sys credFile creds = (t0, .exit ("Error reading TOTP code: " ++ err ++ "\n"))
        ∧ t0.filter Event.isRequest = [])
      ∧ ∀ t0 creds', main.totp net creds = (t0, .ok creds') →
          t0.filter Event.isRequest = []
          ∧ (main lib net sys credFile creds).1
            = t0 ++ [Event.Post (getUrlPath creds.AuthURL "/v3/auth/tokens")
                (Json.obj [("auth", Json.obj [
                  ("identity", Json.obj (passwordIdentity creds')),
                  ("scope", Json.obj [("project", Json.obj [("id", Json.str creds.ProjectID)])])])])]
          ∧ (∀ net' : Net, net'.PromptForTOTP = net.PromptForTOTP →
              net'.Post (getUrlPath creds.AuthURL "/v3/auth/tokens")
                  (Json.obj [("auth", Json.obj [
                    ("identity", Json.obj (passwordIdentity creds')),
                    ("scope", Json.obj [("project", Json.obj [
                      ("id", Json.str creds.ProjectID)])])])])
                = net.Post (getUrlPath creds.AuthURL "/v3/auth/tokens")
                  (Json.obj [("auth", Json.obj [
                    ("identity", Json.obj (passwordIdentity creds')),
                    ("scope", Json.obj [("project", Json.obj [
                      ("id", Json.str creds.ProjectID)])])])]) →
              main lib net' sys credFile creds = main lib net sys credFile creds)
          ∧ ∀ resp,
              net.Post (getUrlPath creds.AuthURL "/v3/auth/tokens")
                  (Json.obj [("auth", Json.obj [
                    ("identity", Json.obj (passwordIdentity creds')),
                    ("scope", Json.obj [("project", Json.obj [
                      ("id", Json.str creds.ProjectID)])])])])
                = .ok resp →
              resp.ReadErr = none → resp.StatusCode = 201 → resp.SubjectToken ≠ "" →
              (main lib net sys credFile creds).2
                = .ok (outputEnvironmentVars credFile ⟨creds.ProjectID, creds.ProjectName, ""⟩
                    resp.SubjectToken creds')
              ∧ "export OS_PROJECT_ID=" ++ creds.ProjectID
                  ∈ outputEnvironmentVars credFile ⟨creds.ProjectID, creds.ProjectName, ""⟩
                    resp.SubjectToken creds'
              ∧ "export OS_TOKEN=" ++ resp.SubjectToken
                  ∈ outputEnvironmentVars credFile ⟨creds.ProjectID, creds.ProjectName, ""⟩
                    resp.SubjectToken creds' := by
  refine ⟨?_, ?_⟩
  · intro t0 err htotp
    exact ⟨main_totp_error lib net sys credFile creds t0 err htotp,
      totp_trace_no_request net creds t0 _ htotp⟩
  · intro t0 creds' htotp
    have hf := totp_fields net creds creds' t0 htotp
    have hurl : creds'.AuthURL = creds.AuthURL := by rw [hf]
    refine ⟨totp_trace_no_request net creds t0 _ htotp, ?_, ?_, ?_⟩
    · rw [main_project_id_eq lib net sys credFile creds creds' t0 happ hsys hid htotp]
      simp only [GetScopedToken_trace, hurl]
    · intro net' hprompt hpost
      have htotp' : main.totp net' creds = (t0, .ok creds') := by
        rw [totp_congr net net' creds hprompt, htotp]
      rw [← hurl] at hpost
      rw [main_project_id_eq lib net' sys credFile creds creds' t0 happ hsys hid htotp',
        main_project_id_eq lib net sys credFile creds creds' t0 happ hsys hid htotp,
        GetScopedToken_congr net net' creds' creds.ProjectID hpost]
    · intro resp hpost hread hstatus htoken
      rw [← hurl] at hpost
      rw [main_project_id_eq lib net sys credFile creds creds' t0 happ hsys hid htotp]
      refine ⟨?_, by simp [outputEnvironmentVars], by simp [outputEnvironmentVars]⟩
      simp only [GetScopedToken_ok net creds' creds.ProjectID resp hpost hread hstatus htoken]

/-- Witness for C13 (amended): `project_id = "p1"` together with `project_name =
"dev"`: one scoped-by-id request for `p1`, and `OS_PROJECT_ID=p1` in the output;
with `totp_required` and a failing prompt the run exits after the prompt. -/
theorem main_project_id_witness :
    (main demoLib failingPromptNet (demoSys 1000) demoCredFile idTotpCreds
        = ([Event.PromptForTOTP],
            .exit ("Error reading TOTP code: " ++ "failed to open /dev/tty: no such device"
              ++ "\n")))
      ∧ (main demoLib demoNet (demoSys 1000) demoCredFile idCreds).1
          = [] ++ [Event.Post (getUrlPath idCreds.AuthURL "/v3/auth/tokens")
              (Json.obj [("auth", Json.obj [
                ("identity", Json.obj (passwordIdentity idCreds)),
                ("scope", Json.obj [("project", Json.obj [("id", Json.str idCreds.ProjectID)])])])])]
      ∧ (main demoLib demoNet (demoSys 1000) demoCredFile idCreds).2
          = .ok (outputEnvironmentVars demoCredFile ⟨"p1", "dev", ""⟩ "tok" idCreds)
      ∧ "export OS_PROJECT_ID=" ++ "p1"
          ∈ outputEnvironmentVars demoCredFile ⟨"p1", "dev", ""⟩ "tok" idCreds :=
  have hfail := (main_project_id demoLib failingPromptNet (demoSys 1000) demoCredFile
    idTotpCreds (by decide) (by decide) (by decide)).1 [Event.PromptForTOTP] _ rfl
  have h := (main_project_id demoLib demoNet (demoSys 1000) demoCredFile idCreds
    (by decide) (by decide) (by decide)).2 [] idCreds rfl
  have h4 := h.2.2.2 ⟨201, "201 Created", "tok", "", none⟩ rfl rfl rfl (by decide)
  ⟨hfail.1, h.2.1, h4.1, h4.2.1⟩

/-! ## Lemmas on the classification of a response -/

theorem GetUnscopedToken_result (net : Net) (creds : Credentials) (resp : Response)
    (hpost : ∀ url body, net.Post url body = .ok resp) (hread : resp.ReadErr = none) :
    (GetUnscopedToken net creds).2
      = if resp.StatusCode ≠ 201 then
          .error ("authentication failed: " ++ resp.Status ++ " - " ++ resp.Body)
        else if resp.SubjectToken = "" then .error "no token received"
        else .ok resp.SubjectToken := by
  simp only [GetUnscopedToken, hpost, hread]

theorem GetScopedToken_result (net : Net) (creds : Credentials) (projectID : String)
    (resp : Response)
    (hpost : ∀ url body, net.Post url body = .ok resp) (hread : resp.ReadErr = none) :
    (GetScopedToken net creds projectID).2
      = if resp.StatusCode ≠ 201 then
          .error ("scoped authentication failed: " ++ resp.Status ++ " - " ++ resp.Body)
        else if resp.SubjectToken = "" then .error "no scoped token received"
        else .ok resp.SubjectToken := by
  simp only [GetScopedToken, hpost, hread]

theorem GetApplicationCredentialToken_result (lib : Lib) (net : Net) (creds : Credentials)
    (resp : Response)
    (hpost : ∀ url body, net.Post url body = .ok resp) (hread : resp.ReadErr = none) :
    (GetApplicationCredentialToken lib net creds).2
      = if resp.StatusCode ≠ 201 then
          .error ("application credential authentication failed: " ++ resp.Status ++ " - "
            ++ resp.Body)
        else if resp.SubjectToken = "" then .error "no token received"
        else
          match lib.unmarshalTokenResponse resp.Body with
          | .error err => .error ("failed to parse token response: " ++ err)
          | .ok tokenResponse => .ok (resp.SubjectToken, tokenResponse) := by
  simp only [GetApplicationCredentialToken, hpost, hread]

theorem GetScopedTokenByProjectName_result (lib : Lib) (net : Net) (creds : Credentials)
    (projectName : String) (resp : Response)
    (hpost : ∀ url body, net.Post url body = .ok resp) (hread : resp.ReadErr = none) :
    (GetScopedTokenByProjectName lib net creds projectName).2
      = if resp.StatusCode ≠ 201 then
          .error ("scoped authentication failed: " ++ resp.Status ++ " - " ++ resp.Body)
        else if resp.SubjectToken = "" then .error "no scoped token received"
        else
          match lib.unmarshalTokenResponse resp.Body with
          | .error err => .error ("failed to parse token response: " ++ err)
          | .ok tokenResponse => .ok (resp.SubjectToken, tokenResponse) := by
  simp only [GetScopedTokenByProjectName, hpost, hread]

theorem GetScopedTokenByProjectName_trace (lib : Lib) (net : Net) (creds : Credentials)
    (projectName : String) :
    (GetScopedTokenByProjectName lib net creds projectName).1
      = [Event.Post (getUrlPath creds.AuthURL "/v3/auth/tokens?nocatalog")
          (Json.obj [("auth", Json.obj [
            ("identity", Json.obj (passwordIdentity creds)),
            ("scope", Json.obj [("project", Json.obj [
              ("name", Json.str projectName), ("domain", getDomainSpec creds)])])])])] :=
  rfl

theorem main_project_name_eq (lib : Lib) (net : Net) (sys : Sys) (credFile : CredentialFile)
    (creds creds' : Credentials) (t0 : List Event)
    (happ : creds.IsApplicationCredential = false) (hsys : creds.SystemScope = "")
    (hid : creds.ProjectID = "") (hname : creds.ProjectName ≠ "")
    (htotp : main.totp net creds = (t0, .ok creds')) :
    main lib net sys credFile creds
      = (t0 ++ (GetScopedTokenByProjectName lib net creds' creds.ProjectName).1,
          match (GetScopedTokenByProjectName lib net creds' creds.ProjectName).2 with
          | .error err => .exit ("Error getting scoped token: " ++ err ++ "\n")
          | .ok (scopedToken, tokenResponse) =>
            .ok (outputEnvironmentVars credFile
              ⟨tokenResponse.Token.Project.ID, tokenResponse.Token.Project.Name, ""⟩
              scopedToken creds')) := by
  have hf := totp_fields net creds creds' t0 htotp
  have happ' : creds'.IsApplicationCredential = false := by rw [hf]; exact happ
  have hsys' : creds'.SystemScope = "" := by rw [hf]; exact hsys
  have hid' : creds'.ProjectID = "" := by rw [hf]; exact hid
  have hname' : creds'.ProjectName = creds.ProjectName := by rw [hf]
  have hproj' : creds'.HasProjectDefined = true := by
    simp [Credentials.HasProjectDefined, hname', hname]
  unfold main
  rw [htotp]
  simp only [happ', hsys', hproj', hid', hname', ne_eq, not_true_eq_false,
    if_true, Bool.false_eq_true, if_false]
  rcases GetScopedTokenByProjectName lib net creds' creds.ProjectName with ⟨t1, r⟩
  cases r <;> rfl

/-! ## C14 -/

/-- C14: in the scoped-by-name branch, when the service answers the request
with `201`, a non-empty `X-Subject-Token` `t` and a body whose `token.project` is
`{id: i, name: n}`, the run ends with token `t` and the project `{i, n}` of the
response body passed to the output, whatever the record's `project_name` is. -/
theorem main_project_name (lib : Lib) (net : Net) (sys : Sys) (credFile : CredentialFile)
    (creds creds' : Credentials) (t0 : List Event) (resp : Response)
    (tokenResponse : TokenResponse)
    (happ : creds.IsApplicationCredential = false) (hsys : creds.SystemScope = "")
    (hid : creds.ProjectID = "") (hname : creds.ProjectName ≠ "")
    (htotp : main.totp net creds = (t0, .ok creds'))
    (hpost : ∀ url body, net.Post url body = .ok resp) (hread : resp.ReadErr = none)
    (hstatus : resp.StatusCode = 201) (htoken : resp.SubjectToken ≠ "")
    (hbody : lib.unmarshalTokenResponse resp.Body = .ok tokenResponse) :
    (main lib net sys credFile creds).1
        = t0 ++ [Event.Post (getUrlPath creds.AuthURL "/v3/auth/tokens?nocatalog")
            (Json.obj [("auth", Json.obj [
              ("identity", Json.obj (passwordIdentity creds')),
              ("scope", Json.obj [("project", Json.obj [
                ("name", Json.str creds.ProjectName), ("domain", getDomainSpec creds')])])])])]
      ∧ (main lib net sys credFile creds).2
          = .ok (outputEnvironmentVars credFile
              ⟨tokenResponse.Token.Project.ID, tokenResponse.Token.Project.Name, ""⟩
              resp.SubjectToken creds')
      ∧ "export OS_PROJECT_ID=" ++ tokenResponse.Token.Project.ID
          ∈ outputEnvironmentVars credFile
              ⟨tokenResponse.Token.Project.ID, tokenResponse.Token.Project.Name, ""⟩
              resp.SubjectToken creds'
      ∧ "export OS_TOKEN=" ++ resp.SubjectToken
          ∈ outputEnvironmentVars credFile
              ⟨tokenResponse.Token.Project.ID, tokenResponse.Token.Project.Name, ""⟩
              resp.SubjectToken creds' := by
  have hf := totp_fields net creds creds' t0 htotp
  have hurl : creds'.AuthURL = creds.AuthURL := by rw [hf]
  rw [main_project_name_eq lib net sys credFile creds creds' t0 happ hsys hid hname htotp]
  refine ⟨by simp only [GetScopedTokenByProjectName_trace, hurl], ?_,
    by simp [outputEnvironmentVars], by simp [outputEnvironmentVars]⟩
  simp only [GetScopedTokenByProjectName_result lib net creds' creds.ProjectName resp hpost hread,
    hstatus, htoken, hbody, ne_eq, not_true_eq_false, if_false]

/-- Witness for C14: the record has `project_name = "dev"` and domain name
`Default`; the service answers `201`, `X-Subject-Token: tok123` and a body with
project `{abc, dev}`; the run ends with `(tok123, {abc, dev})`. -/
theorem main_project_name_witness :
    (main devLib devNet (demoSys 1000) demoCredFile devCreds).1
        = [] ++ [Event.Post (getUrlPath devCreds.AuthURL "/v3/auth/tokens?nocatalog")
            (Json.obj [("auth", Json.obj [
              ("identity", Json.obj (passwordIdentity devCreds)),
              ("scope", Json.obj [("project", Json.obj [
                ("name", Json.str devCreds.ProjectName), ("domain", getDomainSpec devCreds)])])])])]
      ∧ (main devLib devNet (demoSys 1000) demoCredFile devCreds).2
          = .ok (outputEnvironmentVars demoCredFile ⟨"abc", "dev", ""⟩ "tok123" devCreds)
      ∧ "export OS_PROJECT_ID=" ++ "abc"
          ∈ outputEnvironmentVars demoCredFile ⟨"abc", "dev", ""⟩ "tok123" devCreds
      ∧ "export OS_TOKEN=" ++ "tok123"
          ∈ outputEnvironmentVars demoCredFile ⟨"abc", "dev", ""⟩ "tok123" devCreds :=
  main_project_name devLib devNet (demoSys 1000) demoCredFile devCreds devCreds []
    ⟨201, "201 Created", "tok123", devBody, none⟩ devTokenResponse
    (by decide) (by decide) (by decide) (by decide) rfl (fun _ _ => rfl) rfl rfl (by decide) rfl

/-! ## C15 -/

theorem noToken_ne_failure (pre st b : String)
    (h : pre.data.take 1 ≠ ['n']) (hlen : 1 ≤ pre.data.length) (m : String)
    (hm : m.data.take 1 = ['n']) : m ≠ pre ++ st ++ " - " ++ b := by
  apply line_ne_of_take 1
  simp only [String.data_append, List.append_assoc]
  rw [List.take_append_of_le_length hlen, hm]
  exact fun e => h e.symm

/-- C15 (counterexample): the application-credential request is answered with
status `201` and the non-empty header `tok`, and it still fails, because the
body does not parse as a token response; and the scoped request answered with
`201` and an empty header fails with `no scoped token received`, not with
`no token received`. -/
theorem GetApplicationCredentialToken_fails_on_201_with_token :
    demoNet.Post "" (Json.arr []) = .ok ⟨201, "201 Created", "tok", "", none⟩
      ∧ (GetApplicationCredentialToken demoLib demoNet appCreds).2
          = .error "failed to parse token response: unsupported"
      ∧ (GetUnscopedToken demoNet demoCreds).2 = .ok "tok"
      ∧ (GetScopedToken noTokenNet demoCreds "p1").2 = .error "no scoped token received" :=
  ⟨rfl, rfl, rfl, rfl⟩

/-- C15 (amended): over a response `(status, X-Subject-Token, body)` whose body
was read.  `GetUnscopedToken` and `GetScopedToken` succeed exactly when the
status is `201` and the header is non-empty, and return the header value; the
application-credential and scoped-by-name requests succeed exactly when, in
addition, the body parses as a token response, and fail with
`failed to parse token response` otherwise.  Every status other than `201` gives
the authentication-failure error, which ends with the response body; status
`201` with an empty header gives `no token received` (`no scoped token received`
for the two scoped requests), which is never an authentication-failure
message. -/
theorem token_response_classification (lib : Lib) (net : Net) (creds : Credentials)
    (projectID projectName : String) (resp : Response)
    (hpost : ∀ url body, net.Post url body = .ok resp) (hread : resp.ReadErr = none) :
    ((∀ t, (GetUnscopedToken net creds).2 = .ok t
          ↔ resp.StatusCode = 201 ∧ resp.SubjectToken ≠ "" ∧ t = resp.SubjectToken)
      ∧ (resp.StatusCode ≠ 201 → (GetUnscopedToken net creds).2
          = .error ("authentication failed: " ++ resp.Status ++ " - " ++ resp.Body))
      ∧ (resp.StatusCode = 201 → resp.SubjectToken = "" →
          (GetUnscopedToken net creds).2 = .error "no token received")
      ∧ ∀ st b, "no token received" ≠ "authentication failed: " ++ st ++ " - " ++ b)
    ∧ ((∀ t, (GetScopedToken net creds projectID).2 = .ok t
          ↔ resp.StatusCode = 201 ∧ resp.SubjectToken ≠ "" ∧ t = resp.SubjectToken)
      ∧ (resp.StatusCode ≠ 201 → (GetScopedToken net creds projectID).2
          = .error ("scoped authentication failed: " ++ resp.Status ++ " - " ++ resp.Body))
      ∧ (resp.StatusCode = 201 → resp.SubjectToken = "" →
          (GetScopedToken net creds projectID).2 = .error "no scoped token received")
      ∧ ∀ st b, "no scoped token received" ≠ "scoped authentication failed: " ++ st ++ " - " ++ b)
    ∧ ((∀ t tr, (GetApplicationCredentialToken lib net creds).2 = .ok (t, tr)
          ↔ resp.StatusCode = 201 ∧ resp.SubjectToken ≠ "" ∧ t = resp.SubjectToken
            ∧ lib.unmarshalTokenResponse resp.Body = .ok tr)
      ∧ (resp.StatusCode ≠ 201 → (GetApplicationCredentialToken lib net creds).2
          = .error ("application credential authentication failed: " ++ resp.Status ++ " - "
              ++ resp.Body))
      ∧ (resp.StatusCode = 201 → resp.SubjectToken = "" →
          (GetApplicationCredentialToken lib net creds).2 = .error "no token received")
      ∧ (∀ err, resp.StatusCode = 201 → resp.SubjectToken ≠ "" →
          lib.unmarshalTokenResponse resp.Body = .error err →
          (GetApplicationCredentialToken lib net creds).2
            = .error ("failed to parse token response: " ++ err))
      ∧ ∀ st b, "no token received"
          ≠ "application credential authentication failed: " ++ st ++ " - " ++ b)
    ∧ ((∀ t tr, (GetScopedTokenByProjectName lib net creds projectName).2 = .ok (t, tr)
          ↔ resp.StatusCode = 201 ∧ resp.SubjectToken ≠ "" ∧ t = resp.SubjectToken
            ∧ lib.unmarshalTokenResponse resp.Body = .ok tr)
      ∧ (resp.StatusCode ≠ 201 → (GetScopedTokenByProjectName lib net creds projectName).2
          = .error ("scoped authentication failed: " ++ resp.Status ++ " - " ++ resp.Body))
      ∧ (resp.StatusCode = 201 → resp.SubjectToken = "" →
          (GetScopedTokenByProjectName lib net creds projectName).2
            = .error "no scoped token received")
      ∧ ∀ err, resp.StatusCode = 201 → resp.SubjectToken ≠ "" →
          lib.unmarshalTokenResponse resp.Body = .error err →
          (GetScopedTokenByProjectName lib net creds projectName).2
            = .error ("failed to parse token response: " ++ err)) := by
  have hu := GetUnscopedToken_result net creds resp hpost hread
  have hs := GetScopedToken_result net creds projectID resp hpost hread
  have ha := GetApplicationCredentialToken_result lib net creds resp hpost hread
  have hn := GetScopedTokenByProjectName_result lib net creds projectName resp hpost hread
  refine ⟨⟨?_, ?_, ?_, ?_⟩, ⟨?_, ?_, ?_, ?_⟩, ⟨?_, ?_, ?_, ?_, ?_⟩, ⟨?_, ?_, ?_, ?_⟩⟩
  · intro t
    rw [hu]
    by_cases h1 : resp.StatusCode = 201 <;> by_cases h2 : resp.SubjectToken = "" <;>
      simp [h1, h2, eq_comm]
  · intro h1
    rw [hu, if_pos h1]
  · intro h1 h2
    rw [hu]
    simp [h1, h2]
  · intro st b
    exact noToken_ne_failure _ st b (by decide) (by decide) _ (by decide)
  · intro t
    rw [hs]
    by_cases h1 : resp.StatusCode = 201 <;> by_cases h2 : resp.SubjectToken = "" <;>
      simp [h1, h2, eq_comm]
  · intro h1
    rw [hs, if_pos h1]
  · intro h1 h2
    rw [hs]
    simp [h1, h2]
  · intro st b
    exact noToken_ne_failure _ st b (by decide) (by decide) _ (by decide)
  · intro t tr
    rw [ha]
    by_cases h1 : resp.StatusCode = 201 <;> by_cases h2 : resp.SubjectToken = "" <;>
      cases h3 : lib.unmarshalTokenResponse resp.Body <;> simp [h1, h2, eq_comm]
  · intro h1
    rw [ha, if_pos h1]
  · intro h1 h2
    rw [ha]
    simp [h1, h2]
  · intro err h1 h2 h3
    rw [ha]
    simp [h1, h2, h3]
  · intro st b
    exact noToken_ne_failure _ st b (by decide) (by decide) _ (by decide)
  · intro t tr
    rw [hn]
    by_cases h1 : resp.StatusCode = 201 <;> by_cases h2 : resp.SubjectToken = "" <;>
      cases h3 : lib.unmarshalTokenResponse resp.Body <;> simp [h1, h2, eq_comm]
  · intro h1
    rw [hn, if_pos h1]
  · intro h1 h2
    rw [hn]
    simp [h1, h2]
  · intro err h1 h2 h3
    rw [hn]
    simp [h1, h2, h3]

/-- Witness for C15 (amended): a `201` with header `tok` makes the unscoped
request succeed with `tok`; a `201` with an empty header makes the scoped request
fail with `no scoped token received`. -/
theorem token_response_classification_witness :
    (GetUnscopedToken demoNet demoCreds).2 = .ok "tok"
      ∧ (GetScopedToken noTokenNet demoCreds "p1").2 = .error "no scoped token received" :=
  ⟨((token_response_classification demoLib demoNet demoCreds "p1" "dev"
        ⟨201, "201 Created", "tok", "", none⟩ (fun _ _ => rfl) rfl).1.1 "tok").mpr
      ⟨rfl, by decide, rfl⟩,
    (token_response_classification demoLib noTokenNet demoCreds "p1" "dev"
        ⟨201, "201 Created", "", "", none⟩ (fun _ _ => rfl) rfl).2.1.2.2.1 rfl rfl⟩

/-! ## C16 -/

theorem getDomainSpec_eq_rule (creds : Credentials) : getDomainSpec creds = domainRule creds := by
  unfold getDomainSpec domainRule
  by_cases h : creds.UserDomainId = "" <;> simp [h]

theorem passwordIdentity_password_domain (creds : Credentials) :
    (Json.obj (passwordIdentity creds)).path ["password", "user", "domain"]
      = some (getDomainSpec creds) := by
  unfold passwordIdentity
  by_cases h : creds.TOTPCode = "" <;>
    simp [h, Json.path, Json.field, Json.setKey, List.lookup]

theorem passwordIdentity_totp_domain (creds : Credentials) (h : creds.TOTPCode ≠ "") :
    (Json.obj (passwordIdentity creds)).path ["totp", "user", "domain"]
      = some (getDomainSpec creds) := by
  unfold passwordIdentity
  simp [h, Json.path, Json.field, Json.setKey, List.lookup]

theorem passwordIdentity_no_totp (creds : Credentials) (h : creds.TOTPCode = "") :
    (Json.obj (passwordIdentity creds)).path ["totp"] = none := by
  unfold passwordIdentity
  simp [h, Json.path, Json.field, List.lookup]

theorem path_auth_identity (identity : List (String × Json)) (rest : List (String × Json))
    (ks : List String) :
    (Json.obj [("auth", Json.obj (("identity", Json.obj identity) :: rest))]).path
        ("auth" :: "identity" :: ks)
      = (Json.obj identity).path ks := by
  simp [Json.path, Json.field, List.lookup]

theorem GetScopedTokenByProjectName_congr (lib : Lib) (net net' : Net) (creds : Credentials)
    (projectName : String)
    (h : net'.Post (getUrlPath creds.AuthURL "/v3/auth/tokens?nocatalog")
          (Json.obj [("auth", Json.obj [
            ("identity", Json.obj (passwordIdentity creds)),
            ("scope", Json.obj [("project", Json.obj [
              ("name", Json.str projectName), ("domain", getDomainSpec creds)])])])])
        = net.Post (getUrlPath creds.AuthURL "/v3/auth/tokens?nocatalog")
          (Json.obj [("auth", Json.obj [
            ("identity", Json.obj (passwordIdentity creds)),
            ("scope", Json.obj [("project", Json.obj [
              ("name", Json.str projectName), ("domain", getDomainSpec creds)])])])])) :
    GetScopedTokenByProjectName lib net' creds projectName
      = GetScopedTokenByProjectName lib net creds projectName := by
  simp only [GetScopedTokenByProjectName, h]

theorem GetScopedTokenByProjectName_ok (lib : Lib) (net : Net) (creds : Credentials)
    (projectName : String) (resp : Response) (tokenResponse : TokenResponse)
    (hpost : net.Post (getUrlPath creds.AuthURL "/v3/auth/tokens?nocatalog")
          (Json.obj [("auth", Json.obj [
            ("identity", Json.obj (passwordIdentity creds)),
            ("scope", Json.obj [("project", Json.obj [
              ("name", Json.str projectName), ("domain", getDomainSpec creds)])])])])
        = .ok resp)
    (hread : resp.ReadErr = none) (hstatus : resp.StatusCode = 201)
    (htoken : resp.SubjectToken ≠ "")
    (hbody : lib.unmarshalTokenResponse resp.Body = .ok tokenResponse) :
    (GetScopedTokenByProjectName lib net creds projectName).2
      = .ok (resp.SubjectToken, tokenResponse) := by
  simp only [GetScopedTokenByProjectName, hpost, hread, hstatus, htoken, hbody, ne_eq,
    not_true_eq_false, if_false]

/-- C16: each of the unscoped, the scoped-by-id and the scoped-by-name request
sends one body to `net.Post`: the function's result is the same on every network
that answers the POST of this body the same way, and is the header token when
this POST is answered with `201` and a token (and, by name, a body that parses).
In this body the domain object under `identity.password.user`, the one under
`identity.totp.user` when a TOTP code is present (without a code there is no
`totp` block), and in the by-name request the one under `scope.project`, is the
one-key object `{id: user_domain_id}` when `user_domain_id` is non-empty and
`{name: user_domain_name}` otherwise. -/
theorem request_domain_selection (lib : Lib) (net : Net) (creds : Credentials)
    (projectID projectName : String) :
    (∃ body, (GetUnscopedToken net creds).1
          = [Event.Post (getUrlPath creds.AuthURL "/v3/auth/tokens?nocatalog") body]
        ∧ (∀ net' : Net,
            net'.Post (getUrlPath creds.AuthURL "/v3/auth/tokens?nocatalog") body
              = net.Post (getUrlPath creds.AuthURL "/v3/auth/tokens?nocatalog") body →
            GetUnscopedToken net' creds = GetUnscopedToken net creds)
        ∧ (∀ resp, net.Post (getUrlPath creds.AuthURL "/v3/auth/tokens?nocatalog") body = .ok resp →
            resp.ReadErr = none → resp.StatusCode = 201 → resp.SubjectToken ≠ "" →
            (GetUnscopedToken net creds).2 = .ok resp.SubjectToken)
        ∧ body.path ["auth", "identity", "password", "user", "domain"] = some (domainRule creds)
        ∧ (creds.TOTPCode ≠ "" →
            body.path ["auth", "identity", "totp", "user", "domain"] = some (domainRule creds))
        ∧ (creds.TOTPCode = "" → body.path ["auth", "identity", "totp"] = none))
    ∧ (∃ body, (GetScopedToken net creds projectID).1
          = [Event.Post (getUrlPath creds.AuthURL "/v3/auth/tokens") body]
        ∧ (∀ net' : Net,
            net'.Post (getUrlPath creds.AuthURL "/v3/auth/tokens") body
              = net.Post (getUrlPath creds.AuthURL "/v3/auth/tokens") body →
            GetScopedToken net' creds projectID = GetScopedToken net creds projectID)
        ∧ (∀ resp, net.Post (getUrlPath creds.AuthURL "/v3/auth/tokens") body = .ok resp →
            resp.ReadErr = none → resp.StatusCode = 201 → resp.SubjectToken ≠ "" →
            (GetScopedToken net creds projectID).2 = .ok resp.SubjectToken)
        ∧ body.path ["auth", "identity", "password", "user", "domain"] = some (domainRule creds)
        ∧ (creds.TOTPCode ≠ "" →
            body.path ["auth", "identity", "totp", "user", "domain"] = some (domainRule creds))
        ∧ (creds.TOTPCode = "" → body.path ["auth", "identity", "totp"] = none))
    ∧ (∃ body, (GetScopedTokenByProjectName lib net creds projectName).1
          = [Event.Post (getUrlPath creds.AuthURL "/v3/auth/tokens?nocatalog") body]
        ∧ (∀ net' : Net,
            net'.Post (getUrlPath creds.AuthURL "/v3/auth/tokens?nocatalog") body
              = net.Post (getUrlPath creds.AuthURL "/v3/auth/tokens?nocatalog") body →
            GetScopedTokenByProjectName lib net' creds projectName
              = GetScopedTokenByProjectName lib net creds projectName)
        ∧ (∀ resp tokenResponse,
            net.Post (getUrlPath creds.AuthURL "/v3/auth/tokens?nocatalog") body = .ok resp →
            resp.ReadErr = none → resp.StatusCode = 201 → resp.SubjectToken ≠ "" →
            lib.unmarshalTokenResponse resp.Body = .ok tokenResponse →
            (GetScopedTokenByProjectName lib net creds projectName).2
              = .ok (resp.SubjectToken, tokenResponse))
        ∧ body.path ["auth", "identity", "password", "user", "domain"] = some (domainRule creds)
        ∧ (creds.TOTPCode ≠ "" →
            body.path ["auth", "identity", "totp", "user", "domain"] = some (domainRule creds))
        ∧ (creds.TOTPCode = "" → body.path ["auth", "identity", "totp"] = none)
        ∧ body.path ["auth", "scope", "project", "domain"] = some (domainRule creds))
    ∧ ((creds.UserDomainId ≠ "" → domainRule creds = Json.obj [("id", Json.str creds.UserDomainId)])
      ∧ (creds.UserDomainId = "" →
          domainRule creds = Json.obj [("name", Json.str creds.UserDomainName)])) := by
  refine ⟨⟨_, GetUnscopedToken_trace net creds,
      fun net' h => GetUnscopedToken_congr net net' creds h,
      fun resp h1 h2 h3 h4 => GetUnscopedToken_ok net creds resp h1 h2 h3 h4, ?_, ?_, ?_⟩,
    ⟨_, GetScopedToken_trace net creds projectID,
      fun net' h => GetScopedToken_congr net net' creds projectID h,
      fun resp h1 h2 h3 h4 => GetScopedToken_ok net creds projectID resp h1 h2 h3 h4,
      ?_, ?_, ?_⟩,
    ⟨_, GetScopedTokenByProjectName_trace lib net creds projectName,
      fun net' h => GetScopedTokenByProjectName_congr lib net net' creds projectName h,
      fun resp tr h1 h2 h3 h4 h5 =>
        GetScopedTokenByProjectName_ok lib net creds projectName resp tr h1 h2 h3 h4 h5,
      ?_, ?_, ?_, ?_⟩,
    ⟨fun h => by simp [domainRule, h], fun h => by simp [domainRule, h]⟩⟩
  · rw [path_auth_identity, passwordIdentity_password_domain, getDomainSpec_eq_rule]
  · intro h
    rw [path_auth_identity, passwordIdentity_totp_domain creds h, getDomainSpec_eq_rule]
  · intro h
    rw [path_auth_identity, passwordIdentity_no_totp creds h]
  · rw [path_auth_identity, passwordIdentity_password_domain, getDomainSpec_eq_rule]
  · intro h
    rw [path_auth_identity, passwordIdentity_totp_domain creds h, getDomainSpec_eq_rule]
  · intro h
    rw [path_auth_identity, passwordIdentity_no_totp creds h]
  · rw [path_auth_identity, passwordIdentity_password_domain, getDomainSpec_eq_rule]
  · intro h
    rw [path_auth_identity, passwordIdentity_totp_domain creds h, getDomainSpec_eq_rule]
  · intro h
    rw [path_auth_identity, passwordIdentity_no_totp creds h]
  · rw [← getDomainSpec_eq_rule]
    simp [Json.path, Json.field, List.lookup]

/-- Witness for C16: with `user_domain_id = "dom1"` and `user_domain_name =
"Default"` both set and a TOTP code present, the by-name request sends a body
carrying `{id: "dom1"}` at all three places, and its `201` answer is what the
function returns. -/
theorem request_domain_selection_witness :
    ∃ body, (GetScopedTokenByProjectName devLib devNet domainCreds "dev").1
        = [Event.Post (getUrlPath domainCreds.AuthURL "/v3/auth/tokens?nocatalog") body]
      ∧ devNet.Post (getUrlPath domainCreds.AuthURL "/v3/auth/tokens?nocatalog") body
          = .ok ⟨201, "201 Created", "tok123", devBody, none⟩
      ∧ (GetScopedTokenByProjectName devLib devNet domainCreds "dev").2
          = .ok ("tok123", devTokenResponse)
      ∧ body.path ["auth", "identity", "password", "user", "domain"]
          = some (Json.obj [("id", Json.str "dom1")])
      ∧ body.path ["auth", "identity", "totp", "user", "domain"]
          = some (Json.obj [("id", Json.str "dom1")])
      ∧ body.path ["auth", "scope", "project", "domain"]
          = some (Json.obj [("id", Json.str "dom1")]) :=
  have h := (request_domain_selection devLib devNet domainCreds "p1" "dev").2.2.1
  h.elim fun body hb =>
    ⟨body, hb.1, rfl,
      hb.2.2.1 ⟨201, "201 Created", "tok123", devBody, none⟩ devTokenResponse rfl rfl rfl
        (by decide) rfl,
      hb.2.2.2.1, hb.2.2.2.2.1 (by decide), hb.2.2.2.2.2.2⟩

/-! ## C17 -/

theorem split_at_bar (x x' r r' : List Char) (hx : '|' ∉ x) (hx' : '|' ∉ x')
    (h : x ++ '|' :: r = x' ++ '|' :: r') : x = x' ∧ r = r' := by
  induction x generalizing x' with
  | nil =>
    cases x' with
    | nil => exact ⟨rfl, (List.cons.inj h).2⟩
    | cons c t =>
      have hc := (List.cons.inj h).1
      exact absurd (hc ▸ List.mem_cons_self c t) hx'
  | cons c t ih =>
    cases x' with
    | nil =>
      have hc := (List.cons.inj h).1
      exact absurd (hc ▸ List.mem_cons_self c t) hx
    | cons c' t' =>
      have h2 := List.cons.inj h
      have := ih t' (fun m => hx (List.mem_cons_of_mem c m))
        (fun m => hx' (List.mem_cons_of_mem c' m)) h2.2
      exact ⟨by rw [h2.1, this.1], this.2⟩

theorem tokenCacheKeyData_collision (a u d p : String) (hp : p ≠ "") :
    tokenCacheKeyData a u (d ++ "|" ++ p) "" = tokenCacheKeyData a u d p := by
  apply String.ext
  rw [tokenCacheKeyData_data, tokenCacheKeyData_data]
  simp [hp]

theorem tokenCacheKeyData_injective_without_bar (a u d p a' u' d' p' : String)
    (ha : '|' ∉ a.data) (hu : '|' ∉ u.data) (hd : '|' ∉ d.data)
    (ha' : '|' ∉ a'.data) (hu' : '|' ∉ u'.data) (hd' : '|' ∉ d'.data)
    (h : tokenCacheKeyData a u d p = tokenCacheKeyData a' u' d' p') :
    a = a' ∧ u = u' ∧ d = d' ∧ p = p' := by
  have hdata := congrArg String.data h
  rw [tokenCacheKeyData_data, tokenCacheKeyData_data] at hdata
  obtain ⟨h1, hdata⟩ := split_at_bar _ _ _ _ ha ha' hdata
  obtain ⟨h2, hdata⟩ := split_at_bar _ _ _ _ hu hu' hdata
  refine ⟨String.ext h1, String.ext h2, ?_⟩
  by_cases e : p = "" <;> by_cases e' : p' = ""
  · simp only [e, e', if_true, List.append_nil] at hdata
    exact ⟨String.ext hdata, by rw [e, e']⟩
  · simp only [e, e', if_true, if_false, List.append_nil] at hdata
    exact absurd (hdata ▸ List.mem_append_right _ (List.mem_cons_self _ _)) hd
  · simp only [e, e', if_true, if_false, List.append_nil] at hdata
    exact absurd (hdata.symm ▸ List.mem_append_right _ (List.mem_cons_self _ _)) hd'
  · simp only [e, e', if_false] at hdata
    obtain ⟨h3, h4⟩ := split_at_bar _ _ _ _ hd hd' hdata
    exact ⟨String.ext h3, String.ext h4⟩

/-- C17: the token cache key is not injective on whole tuples.  For every
non-empty `p`, the unscoped tuple `(a, u, d ++ "|" ++ p, "")` and the
project-scoped tuple `(a, u, d, p)` differ in the domain and in the project id,
yet hash the same string, so they get the same key and the same cache file;
whereas among tuples whose `auth_url`, `username` and `user_domain` contain no
`|`, the hashed string determines all four components. -/
theorem tokenCacheKey_bar_collision (lib : Lib) (s : Sys) (a u d p : String) (hp : p ≠ "") :
    (d ++ "|" ++ p ≠ d ∧ "" ≠ p)
      ∧ generateTokenCacheKey lib a u (d ++ "|" ++ p) "" = generateTokenCacheKey lib a u d p
      ∧ getTokenCacheFilePath lib s a u (d ++ "|" ++ p) "" = getTokenCacheFilePath lib s a u d p
      ∧ ∀ a₁ u₁ d₁ p₁ a₂ u₂ d₂ p₂ : String,
          '|' ∉ a₁.data → '|' ∉ u₁.data → '|' ∉ d₁.data →
          '|' ∉ a₂.data → '|' ∉ u₂.data → '|' ∉ d₂.data →
          tokenCacheKeyData a₁ u₁ d₁ p₁ = tokenCacheKeyData a₂ u₂ d₂ p₂ →
          a₁ = a₂ ∧ u₁ = u₂ ∧ d₁ = d₂ ∧ p₁ = p₂ := by
  have hkey : generateTokenCacheKey lib a u (d ++ "|" ++ p) "" = generateTokenCacheKey lib a u d p := by
    unfold generateTokenCacheKey
    rw [tokenCacheKeyData_collision a u d p hp]
  refine ⟨⟨?_, fun e => hp e.symm⟩, hkey, ?_, ?_⟩
  · intro e
    have hlen := congrArg (fun t : String => t.data.length) e
    have hbar : ("|" : String).data.length = 1 := rfl
    simp only [String.data_append, List.length_append, hbar] at hlen
    omega
  · unfold getTokenCacheFilePath
    rw [hkey]
  · intro a₁ u₁ d₁ p₁ a₂ u₂ d₂ p₂ h1 h2 h3 h4 h5 h6 h
    exact tokenCacheKeyData_injective_without_bar _ _ _ _ _ _ _ _ h1 h2 h3 h4 h5 h6 h

/-- Witness for C17: `(a, "u", "d|p", "")` and `(a, "u", "d", "p")` share the key
and the cache file. -/
theorem tokenCacheKey_bar_collision_witness :
    ("d" ++ "|" ++ "p" ≠ "d" ∧ "" ≠ "p")
      ∧ generateTokenCacheKey demoLib demoAuthURL "u" ("d" ++ "|" ++ "p") ""
          = generateTokenCacheKey demoLib demoAuthURL "u" "d" "p"
      ∧ getTokenCacheFilePath demoLib (demoSys 0) demoAuthURL "u" ("d" ++ "|" ++ "p") ""
          = getTokenCacheFilePath demoLib (demoSys 0) demoAuthURL "u" "d" "p" :=
  have h := tokenCacheKey_bar_collision demoLib (demoSys 0) demoAuthURL "u" "d" "p" (by decide)
  ⟨h.1, h.2.1, h.2.2.1⟩

end Creds
